import Mathlib

/-!
Verification of the peach-8 CHIP-8 virtual machine core.

The definitions below are a shallow embedding of the Rust sources:
  * `src/peach8/src/timer.rs`   (racy and atomic timer back-ends)
  * `src/peach8/src/opcode.rs`  (the 16-bit opcode decoder)
  * `src/peach8/src/gfx.rs`     (the 64 by 32 monochrome framebuffer)
  * `src/peach8/src/peach.rs`   (the VM state, instruction handlers,
                                 `tick_chip` and `tick_timers`)

Machine integers are embedded as `Nat`, with explicit `% 256` at the points
where the Rust code performs wrapping 8-bit arithmetic; fields of byte type
carry byte values by construction on all reachable states.  Error values
(`&'static str` messages in the source) are embedded as the inductive
`VmErr`; each constructor is annotated with the exact source string.
Host-environment effects (`Context` in the source) are embedded as explicit
parameters (raw key array, random byte) and outputs (the list of frames
handed to `on_frame`).

An important detail preserved by the embedding: Rust evaluates the argument
of `Result::and` eagerly.  In `Peach8::execute` the trailing
`.and(self.pc_increment())` therefore runs `pc_increment` even when the
handler has already failed, and in `Peach8::tick_chip` the block
`.and({ self.ctx.on_frame(...); Ok(()) })` presents a frame even when the
tick has already failed.  Both are modelled exactly.
-/

/-- Pointwise update of a function `Nat → α` at one index
(the embedding of an in-place array store `arr[k] = val`). -/
def vset {α : Type} (f : Nat → α) (k : Nat) (val : α) : Nat → α :=
  fun j => if j = k then val else f j

/-! ## Timers (`src/peach8/src/timer.rs`) -/

/-- Result of one timer decrement, `timer.rs` `TimerState`. -/
inductive TimerState where
  | On
  | Off
  | Finished
  deriving DecidableEq, Repr

/-- `racy::Timer::decrement`: the plain (non-atomic) back-end.  The cell
value is the `Nat` state; returns the reported `TimerState` and the new
cell value. -/
def racy_decrement (v : Nat) : TimerState × Nat :=
  if v > 0 then
    let v2 := v - 1
    (if v2 = 0 then TimerState.Finished else TimerState.On, v2)
  else
    (TimerState.Off, v)

/-- `atomic::Timer::decrement`: `fetch_update` stores `v-1` when `v > 0`
(else `v`) and returns the OLD value, which is then mapped
`0 => Off, 1 => Finished, _ => On`. -/
def atomic_decrement (v : Nat) : TimerState × Nat :=
  let v2 := if v > 0 then v - 1 else v
  (match v with
   | 0 => TimerState.Off
   | 1 => TimerState.Finished
   | _ + 2 => TimerState.On,
   v2)

/-- `racy::Timer::store` / `atomic::Timer::store`: overwrite the cell. -/
def timer_store (_v new : Nat) : Nat := new

/-- `racy::Timer::load` / `atomic::Timer::load`: read the cell. -/
def timer_load (v : Nat) : Nat := v

/-- One call against a timer back-end. -/
inductive TimerOp where
  | store (n : Nat)
  | load
  | decrement
  deriving DecidableEq, Repr

/-- Observable output of one timer call. -/
inductive TimerObs where
  | loaded (n : Nat)
  | ticked (st : TimerState)
  deriving DecidableEq, Repr

/-- Run a sequence of store/load/decrement calls against a back-end given
by its decrement function; returns the observations and the final cell. -/
def run_timer (dec : Nat → TimerState × Nat) : List TimerOp → Nat → List TimerObs × Nat
  | [], v => ([], v)
  | TimerOp.store n :: ops, v => run_timer dec ops (timer_store v n)
  | TimerOp.load :: ops, v =>
      let r := run_timer dec ops v
      (TimerObs.loaded (timer_load v) :: r.1, r.2)
  | TimerOp.decrement :: ops, v =>
      let d := dec v
      let r := run_timer dec ops d.2
      (TimerObs.ticked d.1 :: r.1, r.2)

/-! ## Key edge state machine (`peach.rs` `KeyState`) -/

/-- Per-key edge state, `peach.rs` `KeyState`. -/
inductive KeyState where
  | Pressed
  | Down
  | Released
  | Up
  deriving DecidableEq, Repr

/-- `KeyState::update`: advance one key edge from the raw scan boolean. -/
def key_update (k : KeyState) (pressed : Bool) : KeyState :=
  match k, pressed with
  | KeyState.Pressed, true => KeyState.Down
  | KeyState.Down, true => KeyState.Down
  | KeyState.Pressed, false => KeyState.Released
  | KeyState.Down, false => KeyState.Released
  | KeyState.Released, true => KeyState.Pressed
  | KeyState.Up, true => KeyState.Pressed
  | KeyState.Released, false => KeyState.Up
  | KeyState.Up, false => KeyState.Up

/-! ## Error taxonomy

The source reports errors as `&'static str` messages; each constructor
below stands for exactly one message of `peach.rs` / `opcode.rs`. -/

inductive VmErr where
  /-- "Machine code subroutines not supported" -/
  | machineSubroutine
  /-- the `00EE`-on-empty-stack message (reads: Can t return. Not in subroutine) -/
  | returnWithoutCall
  /-- "Attempted to jump out of program address space" (apostrophe elided) -/
  | jumpBeforeProgram
  /-- "Cannot enter subroutine, stack is full" -/
  | stackFull
  /-- "Attempted to increment pc out of address space" -/
  | pcOutOfSpace
  /-- "Attempted to read memory out of address space" -/
  | readOutOfSpace
  /-- "Attempted to set pc out of address space" -/
  | setPcOutOfSpace
  /-- "Attempted to set i out of address space" -/
  | setIOutOfSpace
  /-- "Attempted to set memory out of address space" -/
  | setMemOutOfSpace
  /-- "Attempted to store data out of address space" -/
  | storeOutOfSpace
  /-- "Attempted to load memory out of address space" -/
  | loadOutOfSpace
  /-- "Pixel index out of bounds" -/
  | pixelOutOfBounds
  /-- "Unknown operation code" -/
  | malformedOp
  deriving DecidableEq, Repr

/-! ## Opcode decoder (`src/peach8/src/opcode.rs`) -/

/-- The 35 instruction variants, `opcode.rs` `OpCode`. -/
inductive OpCode where
  | _0NNN (nnn : Nat)
  | _00E0
  | _00EE
  | _1NNN (nnn : Nat)
  | _2NNN (nnn : Nat)
  | _3XNN (x nn : Nat)
  | _4XNN (x nn : Nat)
  | _5XY0 (x y : Nat)
  | _6XNN (x nn : Nat)
  | _7XNN (x nn : Nat)
  | _8XY0 (x y : Nat)
  | _8XY1 (x y : Nat)
  | _8XY2 (x y : Nat)
  | _8XY3 (x y : Nat)
  | _8XY4 (x y : Nat)
  | _8XY5 (x y : Nat)
  | _8XY6 (x y : Nat)
  | _8XY7 (x y : Nat)
  | _8XYE (x y : Nat)
  | _9XY0 (x y : Nat)
  | _ANNN (nnn : Nat)
  | _BNNN (nnn : Nat)
  | _CXNN (x nn : Nat)
  | _DXYN (x y n : Nat)
  | _EX9E (x : Nat)
  | _EXA1 (x : Nat)
  | _FX07 (x : Nat)
  | _FX0A (x : Nat)
  | _FX15 (x : Nat)
  | _FX18 (x : Nat)
  | _FX1E (x : Nat)
  | _FX29 (x : Nat)
  | _FX33 (x : Nat)
  | _FX55 (x : Nat)
  | _FX65 (x : Nat)
  deriving DecidableEq, Repr

/-- `OpCode::read_first`: `raw >> 12 & 0x000F`. -/
def read_first (raw : Nat) : Nat := raw / 4096 % 16

/-- `OpCode::read_last`: `raw & 0x000F`. -/
def read_last (raw : Nat) : Nat := raw % 16

/-- `OpCode::read_x`: `raw >> 8 & 0x000F`. -/
def read_x (raw : Nat) : Nat := raw / 256 % 16

/-- `OpCode::read_y`: `raw >> 4 & 0x000F`. -/
def read_y (raw : Nat) : Nat := raw / 16 % 16

/-- `OpCode::read_nn`: `raw & 0x00FF`. -/
def read_nn (raw : Nat) : Nat := raw % 256

/-- `OpCode::read_nnn`: `raw & 0x0FFF`. -/
def read_nnn (raw : Nat) : Nat := raw % 4096

/-- Outcome of `TryFrom<u16> for OpCode`: success, a decode error, or the
`unreachable!()` branch (`dead`), which would abort the process. -/
inductive DecodeResult where
  | ok (op : OpCode)
  | err (e : VmErr)
  | dead
  deriving DecidableEq, Repr

/-- Whether a decode outcome is the malformed-op rejection. -/
def DecodeResult.isErr : DecodeResult → Bool
  | DecodeResult.err _ => true
  | _ => false

/-- `impl TryFrom<u16> for OpCode`, `opcode.rs` lines 122-231.  The match on
the leading nibble is written as an if-chain over the same literals; the
final else is the source's `unreachable!()`. -/
def decode (raw : Nat) : DecodeResult :=
  if read_first raw = 0x0 then
    if read_nnn raw = 0x0E0 then DecodeResult.ok OpCode._00E0
    else if read_nnn raw = 0x0EE then DecodeResult.ok OpCode._00EE
    else DecodeResult.ok (OpCode._0NNN (read_nnn raw))
  else if read_first raw = 0x1 then DecodeResult.ok (OpCode._1NNN (read_nnn raw))
  else if read_first raw = 0x2 then DecodeResult.ok (OpCode._2NNN (read_nnn raw))
  else if read_first raw = 0x3 then DecodeResult.ok (OpCode._3XNN (read_x raw) (read_nn raw))
  else if read_first raw = 0x4 then DecodeResult.ok (OpCode._4XNN (read_x raw) (read_nn raw))
  else if read_first raw = 0x5 then
    if read_last raw = 0 then DecodeResult.ok (OpCode._5XY0 (read_x raw) (read_y raw))
    else DecodeResult.err VmErr.malformedOp
  else if read_first raw = 0x6 then DecodeResult.ok (OpCode._6XNN (read_x raw) (read_nn raw))
  else if read_first raw = 0x7 then DecodeResult.ok (OpCode._7XNN (read_x raw) (read_nn raw))
  else if read_first raw = 0x8 then
    if read_last raw = 0x0 then DecodeResult.ok (OpCode._8XY0 (read_x raw) (read_y raw))
    else if read_last raw = 0x1 then DecodeResult.ok (OpCode._8XY1 (read_x raw) (read_y raw))
    else if read_last raw = 0x2 then DecodeResult.ok (OpCode._8XY2 (read_x raw) (read_y raw))
    else if read_last raw = 0x3 then DecodeResult.ok (OpCode._8XY3 (read_x raw) (read_y raw))
    else if read_last raw = 0x4 then DecodeResult.ok (OpCode._8XY4 (read_x raw) (read_y raw))
    else if read_last raw = 0x5 then DecodeResult.ok (OpCode._8XY5 (read_x raw) (read_y raw))
    else if read_last raw = 0x6 then DecodeResult.ok (OpCode._8XY6 (read_x raw) (read_y raw))
    else if read_last raw = 0x7 then DecodeResult.ok (OpCode._8XY7 (read_x raw) (read_y raw))
    else if read_last raw = 0xE then DecodeResult.ok (OpCode._8XYE (read_x raw) (read_y raw))
    else DecodeResult.err VmErr.malformedOp
  else if read_first raw = 0x9 then
    if read_last raw = 0 then DecodeResult.ok (OpCode._9XY0 (read_x raw) (read_y raw))
    else DecodeResult.err VmErr.malformedOp
  else if read_first raw = 0xA then DecodeResult.ok (OpCode._ANNN (read_nnn raw))
  else if read_first raw = 0xB then DecodeResult.ok (OpCode._BNNN (read_nnn raw))
  else if read_first raw = 0xC then DecodeResult.ok (OpCode._CXNN (read_x raw) (read_nn raw))
  else if read_first raw = 0xD then
    DecodeResult.ok (OpCode._DXYN (read_x raw) (read_y raw) (read_last raw))
  else if read_first raw = 0xE then
    if read_nn raw = 0x9E then DecodeResult.ok (OpCode._EX9E (read_x raw))
    else if read_nn raw = 0xA1 then DecodeResult.ok (OpCode._EXA1 (read_x raw))
    else DecodeResult.err VmErr.malformedOp
  else if read_first raw = 0xF then
    if read_nn raw = 0x07 then DecodeResult.ok (OpCode._FX07 (read_x raw))
    else if read_nn raw = 0x0A then DecodeResult.ok (OpCode._FX0A (read_x raw))
    else if read_nn raw = 0x15 then DecodeResult.ok (OpCode._FX15 (read_x raw))
    else if read_nn raw = 0x18 then DecodeResult.ok (OpCode._FX18 (read_x raw))
    else if read_nn raw = 0x1E then DecodeResult.ok (OpCode._FX1E (read_x raw))
    else if read_nn raw = 0x29 then DecodeResult.ok (OpCode._FX29 (read_x raw))
    else if read_nn raw = 0x33 then DecodeResult.ok (OpCode._FX33 (read_x raw))
    else if read_nn raw = 0x55 then DecodeResult.ok (OpCode._FX55 (read_x raw))
    else if read_nn raw = 0x65 then DecodeResult.ok (OpCode._FX65 (read_x raw))
    else DecodeResult.err VmErr.malformedOp
  else DecodeResult.dead

/-- The malformed-word set as the claim describes it: `5XY_` with last
nibble not 0, `9XY_` with last nibble not 0, `8XY_` with last nibble
outside {0..7, E}, `EXnn` with `nn` outside {9E, A1}, and `FXnn` with `nn`
outside {07, 0A, 15, 18, 1E, 29, 33, 55, 65}.  (Spec-side definition, for
comparison with `decode`.) -/
def malformed_claim (w : Nat) : Prop :=
  (read_first w = 0x5 ∧ read_last w ≠ 0)
  ∨ (read_first w = 0x9 ∧ read_last w ≠ 0)
  ∨ (read_first w = 0x8 ∧ ¬(read_last w ≤ 7 ∨ read_last w = 0xE))
  ∨ (read_first w = 0xE ∧ ¬(read_nn w = 0x9E ∨ read_nn w = 0xA1))
  ∨ (read_first w = 0xF ∧
      ¬(read_nn w = 0x07 ∨ read_nn w = 0x0A ∨ read_nn w = 0x15 ∨
        read_nn w = 0x18 ∨ read_nn w = 0x1E ∨ read_nn w = 0x29 ∨
        read_nn w = 0x33 ∨ read_nn w = 0x55 ∨ read_nn w = 0x65))

instance (w : Nat) : Decidable (malformed_claim w) := by
  unfold malformed_claim; infer_instance

/-! ## Framebuffer (`src/peach8/src/gfx.rs`)

A `Gfx` maps a column `x < 64` and a row `y < 32` to the pixel bit.  The
source stores the bitmap as 256 bytes, row-major, MSB-first; only the
bit-addressed accessors `get_bit` / `xor_bit` are relevant here. -/

def Gfx : Type := Nat → Nat → Bool

/-- `Gfx::get_bit`: `None` when the coordinates leave the 64 by 32 display. -/
def get_bit (g : Gfx) (x y : Nat) : Option Bool :=
  if x < 64 ∧ y < 32 then some (g x y) else none

/-- `Gfx::xor_bit`: XOR `val` into the pixel, or fail out of bounds. -/
def xor_bit (g : Gfx) (x y : Nat) (val : Bool) : Option Gfx :=
  if x < 64 ∧ y < 32 then
    some (fun a b => if a = x ∧ b = y then Bool.xor (g a b) val else g a b)
  else none

/-! ## VM state (`peach.rs` `Peach8`) -/

/-- `peach.rs` `Peach8` without the host collaborator: `v`, `memory` and the
timers hold byte values (modelled as `Nat`), the stack holds return
addresses with the most recent first (`heapless::Vec` push/pop at the end,
embedded as list cons). -/
structure Chip where
  v : Nat → Nat
  i : Nat
  pc : Nat
  gfx : Gfx
  keys : Nat → KeyState
  stack : List Nat
  memory : Nat → Nat
  delay_timer : Nat
  sound_timer : Nat

/-- Result of one fallible state-mutating operation: the Rust
`&mut self → Result<(), &str>` pattern, keeping the (possibly mutated)
state alongside the outcome. -/
def Res : Type := Option VmErr × Chip

/-- `Peach8::pc_increment`: `pc += 2` if `pc <= MEM_LENGTH - 2 = 4094`. -/
def pc_increment (s : Chip) : Res :=
  if s.pc ≤ 4094 then (none, { s with pc := s.pc + 2 })
  else (some VmErr.pcOutOfSpace, s)

/-- `0NNN` `Peach8::exec_ml_subroutine_at`: always an error. -/
def exec_ml_subroutine_at (_nnn : Nat) (s : Chip) : Res :=
  (some VmErr.machineSubroutine, s)

/-- `00E0` `Peach8::clear_screen`: `gfx = Gfx::new()`. -/
def clear_screen (s : Chip) : Res :=
  (none, { s with gfx := fun _ _ => false })

/-- `00EE` `Peach8::subroutine_return`: pop the stack into `pc`. -/
def subroutine_return (s : Chip) : Res :=
  match s.stack with
  | [] => (some VmErr.returnWithoutCall, s)
  | addr :: rest => (none, { s with pc := addr, stack := rest })

/-- `1NNN` `Peach8::jump_to`. -/
def jump_to (nnn : Nat) (s : Chip) : Res :=
  if nnn < 0x200 then (some VmErr.jumpBeforeProgram, s)
  else (none, { s with pc := nnn })

/-- `2NNN` `Peach8::exec_subroutine_at`: push `pc` (capacity 64), jump. -/
def exec_subroutine_at (nnn : Nat) (s : Chip) : Res :=
  if nnn < 0x200 then (some VmErr.jumpBeforeProgram, s)
  else if 64 ≤ s.stack.length then (some VmErr.stackFull, s)
  else (none, { s with stack := s.pc :: s.stack, pc := nnn })

/-- `3XNN` `Peach8::skip_if_vx_eq_nn`. -/
def skip_if_vx_eq_nn (x nn : Nat) (s : Chip) : Res :=
  if s.v x = nn then pc_increment s else (none, s)

/-- `4XNN` `Peach8::skip_if_vx_ne_nn`. -/
def skip_if_vx_ne_nn (x nn : Nat) (s : Chip) : Res :=
  if s.v x ≠ nn then pc_increment s else (none, s)

/-- `5XY0` `Peach8::skip_if_vx_eq_vy`. -/
def skip_if_vx_eq_vy (x y : Nat) (s : Chip) : Res :=
  if s.v x = s.v y then pc_increment s else (none, s)

/-- `6XNN` `Peach8::assign_vx_nn`. -/
def assign_vx_nn (x nn : Nat) (s : Chip) : Res :=
  (none, { s with v := vset s.v x nn })

/-- `7XNN` `Peach8::assign_add_vx_nn`: `v[x] = v[x].wrapping_add(nn)`. -/
def assign_add_vx_nn (x nn : Nat) (s : Chip) : Res :=
  (none, { s with v := vset s.v x ((s.v x + nn) % 256) })

/-- `8XY0` `Peach8::assign_vx_vy`. -/
def assign_vx_vy (x y : Nat) (s : Chip) : Res :=
  (none, { s with v := vset s.v x (s.v y) })

/-- `8XY1` `Peach8::assign_or_vx_vy`: `v[x] |= v[y]`. -/
def assign_or_vx_vy (x y : Nat) (s : Chip) : Res :=
  (none, { s with v := vset s.v x (Nat.lor (s.v x) (s.v y)) })

/-- `8XY2` `Peach8::assign_and_vx_vy`: `v[x] &= v[y]`. -/
def assign_and_vx_vy (x y : Nat) (s : Chip) : Res :=
  (none, { s with v := vset s.v x (Nat.land (s.v x) (s.v y)) })

/-- `8XY3` `Peach8::assign_xor_vx_vy`: `v[x] ^= v[y]`. -/
def assign_xor_vx_vy (x y : Nat) (s : Chip) : Res :=
  (none, { s with v := vset s.v x (Nat.xor (s.v x) (s.v y)) })

/-- `8XY4` `Peach8::assign_add_vx_vy`: overflowing add, then the carry flag
into `v[15]` (the flag write is last, so it wins when `x = 15`). -/
def assign_add_vx_vy (x y : Nat) (s : Chip) : Res :=
  (none, { s with v := vset (vset s.v x ((s.v x + s.v y) % 256)) 15 (if 256 ≤ s.v x + s.v y then 1 else 0) })

/-- `8XY5` `Peach8::assign_sub_vx_vy`: overflowing sub, `v[15] = 0` on
borrow else `1`. -/
def assign_sub_vx_vy (x y : Nat) (s : Chip) : Res :=
  (none, { s with v := vset (vset s.v x ((s.v x + 256 - s.v y % 256) % 256)) 15 (if s.v x < s.v y then 0 else 1) })

/-- `8XY6` `Peach8::assign_vx_vy_shifted_r`: `lsb = v[y] & 1`,
`value = v[y] >> 1`, then writes `v[x] = value`, `v[y] = value`,
`v[15] = lsb` in that order. -/
def assign_vx_vy_shifted_r (x y : Nat) (s : Chip) : Res :=
  (none, { s with v := vset (vset (vset s.v x (s.v y / 2)) y (s.v y / 2)) 15 (s.v y % 2) })

/-- `8XY7` `Peach8::assign_vx_vy_sub_vx`: `v[x] = v[y] - v[x]` wrapping,
`v[15] = 0` on borrow else `1`. -/
def assign_vx_vy_sub_vx (x y : Nat) (s : Chip) : Res :=
  (none, { s with v := vset (vset s.v x ((s.v y + 256 - s.v x % 256) % 256)) 15 (if s.v y < s.v x then 0 else 1) })

/-- `8XYE` `Peach8::assign_vx_vy_shifted_l`: `msb = v[y] >> 7`,
`value = v[y] << 1` wrapping, then writes `v[x]`, `v[y]`, `v[15] = msb`
in that order. -/
def assign_vx_vy_shifted_l (x y : Nat) (s : Chip) : Res :=
  (none, { s with v := vset (vset (vset s.v x (s.v y * 2 % 256)) y (s.v y * 2 % 256)) 15 (s.v y / 128) })

/-- `9XY0` `Peach8::skip_if_vx_ne_vy`. -/
def skip_if_vx_ne_vy (x y : Nat) (s : Chip) : Res :=
  if s.v x ≠ s.v y then pc_increment s else (none, s)

/-- `ANNN` `Peach8::assign_i_nnn`. -/
def assign_i_nnn (nnn : Nat) (s : Chip) : Res :=
  (none, { s with i := nnn })

/-- `BNNN` `Peach8::jump_to_nnn_add_v0`. -/
def jump_to_nnn_add_v0 (nnn : Nat) (s : Chip) : Res :=
  if nnn + s.v 0 < 0x200 then (some VmErr.jumpBeforeProgram, s)
  else if nnn + s.v 0 < 4096 then (none, { s with pc := nnn + s.v 0 })
  else (some VmErr.setPcOutOfSpace, s)

/-- `CXNN` `Peach8::assign_vx_ranom_and_nn`: `v[x] = ctx.gen_random() & nn`
with the host random byte passed in explicitly. -/
def assign_vx_ranom_and_nn (rand x nn : Nat) (s : Chip) : Res :=
  (none, { s with v := vset s.v x (Nat.land rand nn) })

/-- Source bit of the sprite for display column `xi` and display row `yi`,
given sprite start `(x, y)` and base address `i`: the source reads byte
`memory[i + (yi - y)]` through an MSB-first `BitSlice` at position
`xi - x`, i.e. bit `7 - (xi - x)` of the byte. -/
def sprite_bit (i : Nat) (mem : Nat → Nat) (x y xi yi : Nat) : Bool :=
  Nat.testBit (mem (i + (yi - y))) (7 - (xi - x))

/-- Inner loop of `Peach8::draw_n_at_vx_vy` for one display column `xi`:
iterate over the display rows in `ys`, accumulating the collision flag and
the framebuffer; a failing `xor_bit` aborts like the source `?`. -/
def draw_rows (i : Nat) (mem : Nat → Nat) (x y xi : Nat) :
    List Nat → Bool × Gfx → Option VmErr × (Bool × Gfx)
  | [], st => (none, st)
  | yi :: rest, (col, g) =>
      let to_draw := sprite_bit i mem x y xi yi
      let curr := g xi yi
      let col2 := col || (to_draw && curr)
      match xor_bit g xi yi to_draw with
      | some g2 => draw_rows i mem x y xi rest (col2, g2)
      | none => (some VmErr.pixelOutOfBounds, (col2, g))

/-- Outer loop of `Peach8::draw_n_at_vx_vy` over the display columns. -/
def draw_cols (i : Nat) (mem : Nat → Nat) (x y : Nat) (ys : List Nat) :
    List Nat → Bool × Gfx → Option VmErr × (Bool × Gfx)
  | [], st => (none, st)
  | xi :: rest, st =>
      match draw_rows i mem x y xi ys st with
      | (none, st2) => draw_cols i mem x y ys rest st2
      | (some e, st2) => (some e, st2)

/-- `DXYN` `Peach8::draw_n_at_vx_vy`: bound check `i + n >= 4096` first,
then the clipped XOR draw starting at `(v[x] % 64, v[y] % 32)`, finally
`v[15] = collision`. -/
def draw_n_at_vx_vy (x y n : Nat) (s : Chip) : Res :=
  if 4096 ≤ s.i + n then (some VmErr.readOutOfSpace, s)
  else
    let sx := s.v x % 64
    let sy := s.v y % 32
    let x_stop := min (sx + 8) 64
    let y_stop := min (sy + n) 32
    match draw_cols s.i s.memory sx sy (List.range' sy (y_stop - sy))
        (List.range' sx (x_stop - sx)) (false, s.gfx) with
    | (none, (col, g)) =>
        (none, { s with gfx := g, v := vset s.v 15 (if col then 1 else 0) })
    | (some e, (_, g)) => (some e, { s with gfx := g })

/-- `EX9E` `Peach8::skip_if_vx_in_keys`. -/
def skip_if_vx_in_keys (x : Nat) (s : Chip) : Res :=
  if s.v x < 0x10 ∧ (s.keys (s.v x) = KeyState.Pressed ∨ s.keys (s.v x) = KeyState.Down) then
    pc_increment s
  else (none, s)

/-- `EXA1` `Peach8::skip_if_vx_not_in_keys`. -/
def skip_if_vx_not_in_keys (x : Nat) (s : Chip) : Res :=
  if s.v x < 0x10 ∧ (s.keys (s.v x) = KeyState.Pressed ∨ s.keys (s.v x) = KeyState.Down) then
    (none, s)
  else pc_increment s

/-- `FX07` `Peach8::assign_vx_delay_t`. -/
def assign_vx_delay_t (x : Nat) (s : Chip) : Res :=
  (none, { s with v := vset s.v x (timer_load s.delay_timer) })

/-- `FX0A` `Peach8::assign_vx_wait_for_key`: first key in `Released` state
(scanning indices 0..15), write its index and advance `pc`; otherwise a
successful no-op. -/
def assign_vx_wait_for_key (x : Nat) (s : Chip) : Res :=
  match (List.range 16).find? (fun k => s.keys k = KeyState.Released) with
  | some key => pc_increment { s with v := vset s.v x key }
  | none => (none, s)

/-- `FX15` `Peach8::assign_delay_t_vx`. -/
def assign_delay_t_vx (x : Nat) (s : Chip) : Res :=
  (none, { s with delay_timer := timer_store s.delay_timer (s.v x) })

/-- `FX18` `Peach8::assign_sound_t_vx`. -/
def assign_sound_t_vx (x : Nat) (s : Chip) : Res :=
  (none, { s with sound_timer := timer_store s.sound_timer (s.v x) })

/-- `FX1E` `Peach8::assign_add_i_vx`: `i += v[x]` guarded by `< 4096`. -/
def assign_add_i_vx (x : Nat) (s : Chip) : Res :=
  if s.i + s.v x < 4096 then (none, { s with i := s.i + s.v x })
  else (some VmErr.setIOutOfSpace, s)

/-- `FX29` `Peach8::assign_i_addr_of_sprite_vx`:
`i = FONTSET_ADDR + (v[x] % 16) * 5`. -/
def assign_i_addr_of_sprite_vx (x : Nat) (s : Chip) : Res :=
  (none, { s with i := 0x050 + s.v x % 16 * 5 })

/-- `FX33` `Peach8::assign_mem_at_i_bcd_of_vx`. -/
def assign_mem_at_i_bcd_of_vx (x : Nat) (s : Chip) : Res :=
  if s.i + 2 < 4096 then
    (none, { s with memory := vset (vset (vset s.memory s.i (s.v x / 100)) (s.i + 1) (s.v x % 100 / 10)) (s.i + 2) (s.v x % 10) })
  else (some VmErr.setMemOutOfSpace, s)

/-- The loop body of `FX55`: `k` remaining iterations starting at register
index `idx`; each iteration stores `memory[i] = v[idx]` then `i += 1`. -/
def fx55_go : Nat → Nat → Chip → Chip
  | 0, _, s => s
  | k + 1, idx, s =>
      fx55_go k (idx + 1) { s with memory := vset s.memory s.i (s.v idx), i := s.i + 1 }

/-- `FX55` `Peach8::assign_mem_at_i_v0_to_vx`: bound check
`i + x < MEM_LENGTH - 1 = 4095`, then store `v[0..=x]` advancing `i`. -/
def assign_mem_at_i_v0_to_vx (x : Nat) (s : Chip) : Res :=
  if s.i + x < 4095 then (none, fx55_go (x + 1) 0 s)
  else (some VmErr.storeOutOfSpace, s)

/-- The loop body of `FX65`: each iteration loads `v[idx] = memory[i]` then
`i += 1`. -/
def fx65_go : Nat → Nat → Chip → Chip
  | 0, _, s => s
  | k + 1, idx, s =>
      fx65_go k (idx + 1) { s with v := vset s.v idx (s.memory s.i), i := s.i + 1 }

/-- `FX65` `Peach8::assign_v0_to_vx_mem_at_i`: same bound check, then load
`v[0..=x]` from memory advancing `i`. -/
def assign_v0_to_vx_mem_at_i (x : Nat) (s : Chip) : Res :=
  if s.i + x < 4095 then (none, fx65_go (x + 1) 0 s)
  else (some VmErr.loadOutOfSpace, s)

/-! ## Dispatch and ticks (`peach.rs` `execute`, `tick_chip`, `tick_timers`) -/

/-- The handler dispatch of `Peach8::execute` without the trailing
`.and(self.pc_increment())`. -/
def exec_op (rand : Nat) (op : OpCode) (s : Chip) : Res :=
  match op with
  | OpCode._0NNN nnn => exec_ml_subroutine_at nnn s
  | OpCode._00E0 => clear_screen s
  | OpCode._00EE => subroutine_return s
  | OpCode._1NNN nnn => jump_to nnn s
  | OpCode._2NNN nnn => exec_subroutine_at nnn s
  | OpCode._3XNN x nn => skip_if_vx_eq_nn x nn s
  | OpCode._4XNN x nn => skip_if_vx_ne_nn x nn s
  | OpCode._5XY0 x y => skip_if_vx_eq_vy x y s
  | OpCode._6XNN x nn => assign_vx_nn x nn s
  | OpCode._7XNN x nn => assign_add_vx_nn x nn s
  | OpCode._8XY0 x y => assign_vx_vy x y s
  | OpCode._8XY1 x y => assign_or_vx_vy x y s
  | OpCode._8XY2 x y => assign_and_vx_vy x y s
  | OpCode._8XY3 x y => assign_xor_vx_vy x y s
  | OpCode._8XY4 x y => assign_add_vx_vy x y s
  | OpCode._8XY5 x y => assign_sub_vx_vy x y s
  | OpCode._8XY6 x y => assign_vx_vy_shifted_r x y s
  | OpCode._8XY7 x y => assign_vx_vy_sub_vx x y s
  | OpCode._8XYE x y => assign_vx_vy_shifted_l x y s
  | OpCode._9XY0 x y => skip_if_vx_ne_vy x y s
  | OpCode._ANNN nnn => assign_i_nnn nnn s
  | OpCode._BNNN nnn => jump_to_nnn_add_v0 nnn s
  | OpCode._CXNN x nn => assign_vx_ranom_and_nn rand x nn s
  | OpCode._DXYN x y n => draw_n_at_vx_vy x y n s
  | OpCode._EX9E x => skip_if_vx_in_keys x s
  | OpCode._EXA1 x => skip_if_vx_not_in_keys x s
  | OpCode._FX07 x => assign_vx_delay_t x s
  | OpCode._FX0A x => assign_vx_wait_for_key x s
  | OpCode._FX15 x => assign_delay_t_vx x s
  | OpCode._FX18 x => assign_sound_t_vx x s
  | OpCode._FX1E x => assign_add_i_vx x s
  | OpCode._FX29 x => assign_i_addr_of_sprite_vx x s
  | OpCode._FX33 x => assign_mem_at_i_bcd_of_vx x s
  | OpCode._FX55 x => assign_mem_at_i_v0_to_vx x s
  | OpCode._FX65 x => assign_v0_to_vx_mem_at_i x s

/-- Which opcodes flow into the common `.and(self.pc_increment())` tail of
`Peach8::execute`; the `return`-style arms (`0NNN`, `1NNN`, `2NNN`, `BNNN`,
`FX0A`) bypass it. -/
def op_uses_tail : OpCode → Bool
  | OpCode._0NNN _ => false
  | OpCode._1NNN _ => false
  | OpCode._2NNN _ => false
  | OpCode._BNNN _ => false
  | OpCode._FX0A _ => false
  | _ => true

/-- `Peach8::execute`: dispatch, then — for the non-`return` arms — the
trailing `.and(self.pc_increment())`.  Rust evaluates the argument of
`Result::and` eagerly, so `pc_increment` runs (and may advance `pc`) even
when the handler has already failed; `and` then keeps the first error. -/
def execute (rand : Nat) (op : OpCode) (s : Chip) : Res :=
  let h := exec_op rand op s
  if op_uses_tail op then
    let t := pc_increment h.2
    (match h.1 with
     | some e => some e
     | none => t.1,
     t.2)
  else h

/-- `Peach8::update_keys`: advance each of the 16 key edges from the raw
host booleans (`ctx.get_keys()` passed in as `raw`). -/
def update_keys (raw : Nat → Bool) (s : Chip) : Chip :=
  { s with keys := fun k => if k < 16 then key_update (s.keys k) (raw k) else s.keys k }

/-- `Peach8::read_opcode`: fetch the big-endian word at `pc` (requiring
`pc <= 4094`) and decode it. -/
def read_opcode (s : Chip) : DecodeResult :=
  if s.pc ≤ 4094 then
    decode (s.memory s.pc <<< 8 ||| s.memory (s.pc + 1))
  else DecodeResult.err VmErr.readOutOfSpace

/-- `Peach8::tick_chip`: update key edges, fetch, decode, execute, then the
eagerly evaluated `.and({ self.ctx.on_frame(...); Ok(()) })` block, which
presents a frame on BOTH the success and the error path.  The second
component lists the framebuffers handed to `on_frame` during the call.
The `dead` branch stands for the decoder's `unreachable!()` (a process
abort, so no frame); it is provably never taken. -/
def tick_chip (raw : Nat → Bool) (rand : Nat) (s : Chip) : Res × List Gfx :=
  let s0 := update_keys raw s
  match read_opcode s0 with
  | DecodeResult.ok op =>
      let r := execute rand op s0
      (r, [r.2.gfx])
  | DecodeResult.err e => ((some e, s0), [s0.gfx])
  | DecodeResult.dead => ((some VmErr.malformedOp, s0), [])

/-- `Peach8::tick_timers`: decrement both timers (the atomic back-end is
the default build); the sound on/off host calls carry no VM state. -/
def tick_timers (s : Chip) : Chip :=
  { s with delay_timer := (atomic_decrement s.delay_timer).2,
           sound_timer := (atomic_decrement s.sound_timer).2 }

/-- The 80-byte built-in font, `peach.rs` `load`. -/
def fontset : List Nat :=
  [0xF0, 0x90, 0x90, 0x90, 0xF0,
   0x20, 0x60, 0x20, 0x20, 0x70,
   0xF0, 0x10, 0xF0, 0x80, 0xF0,
   0xF0, 0x10, 0xF0, 0x10, 0xF0,
   0x90, 0x90, 0xF0, 0x10, 0x10,
   0xF0, 0x80, 0xF0, 0x10, 0xF0,
   0xF0, 0x80, 0xF0, 0x90, 0xF0,
   0xF0, 0x10, 0x20, 0x40, 0x40,
   0xF0, 0x90, 0xF0, 0x90, 0xF0,
   0xF0, 0x90, 0xF0, 0x10, 0xF0,
   0xF0, 0x90, 0xF0, 0x90, 0x90,
   0xE0, 0x90, 0xE0, 0x90, 0xE0,
   0xF0, 0x80, 0x80, 0x80, 0xF0,
   0xE0, 0x90, 0x90, 0x90, 0xE0,
   0xF0, 0x80, 0xF0, 0x80, 0xF0,
   0xF0, 0x80, 0xF0, 0x80, 0x80]

/-- `Peach8::load`: a fresh VM (`Peach8::new`) with the font copied to
`0x050` and the program image copied to `0x200` (clipped to memory). -/
def load (prog : List Nat) : Chip :=
  { v := fun _ => 0,
    i := 0,
    pc := 0x200,
    gfx := fun _ _ => false,
    keys := fun _ => KeyState.Up,
    stack := [],
    memory := fun a =>
      if 0x200 ≤ a ∧ a < 0x200 + prog.length ∧ a < 4096 then prog.getD (a - 0x200) 0
      else if 0x050 ≤ a ∧ a < 0x0A0 then fontset.getD (a - 0x050) 0
      else 0,
    delay_timer := 0,
    sound_timer := 0 }

/-- States reachable from a freshly loaded VM by any sequence of
`tick_chip` (with arbitrary host inputs) and `tick_timers` calls. -/
inductive Reachable : Chip → Prop where
  | load (prog : List Nat) : Reachable (load prog)
  | chip (raw : Nat → Bool) (rand : Nat) {s : Chip} :
      Reachable s → Reachable (tick_chip raw rand s).1.2
  | timers {s : Chip} : Reachable s → Reachable (tick_timers s)

/-! ## Helper lemmas -/

theorem racy_eq_atomic (v : Nat) : racy_decrement v = atomic_decrement v := by
  rcases v with _ | _ | n <;> rfl

theorem run_timer_eq (ops : List TimerOp) (v0 : Nat) :
    run_timer racy_decrement ops v0 = run_timer atomic_decrement ops v0 := by
  induction ops generalizing v0 with
  | nil => rfl
  | cons op rest ih =>
      cases op with
      | store n => simpa [run_timer] using ih (timer_store v0 n)
      | load => simp [run_timer, ih v0]
      | decrement => simp [run_timer, racy_eq_atomic, ih]

theorem chip_ext {s t : Chip} (hv : s.v = t.v) (hi : s.i = t.i)
    (hpc : s.pc = t.pc) (hg : s.gfx = t.gfx) (hk : s.keys = t.keys)
    (hst : s.stack = t.stack) (hm : s.memory = t.memory)
    (hd : s.delay_timer = t.delay_timer) (hs2 : s.sound_timer = t.sound_timer) :
    s = t := by
  cases s; cases t; simp_all

theorem fx55_go_spec (k : Nat) : ∀ (idx : Nat) (s : Chip),
    fx55_go k idx s =
      { s with
        memory := fun a =>
          if s.i ≤ a ∧ a < s.i + k then s.v (idx + (a - s.i)) else s.memory a,
        i := s.i + k } := by
  induction k with
  | zero =>
      intro idx s
      cases s
      simp only [fx55_go, Chip.mk.injEq, true_and, and_true]
      refine ⟨by omega, ?_⟩
      funext a
      rw [if_neg (by omega)]
  | succ k ih =>
      intro idx s
      cases s with
      | mk v i pc gfx keys stack memory dt st =>
        simp only [fx55_go]
        rw [ih (idx + 1)]
        simp only [Chip.mk.injEq, true_and, and_true]
        refine ⟨by omega, ?_⟩
        funext a
        simp only [vset]
        by_cases h1 : i + 1 ≤ a ∧ a < i + 1 + k
        · have h2 : i ≤ a ∧ a < i + (k + 1) := by omega
          rw [if_pos h1, if_pos h2]
          exact congrArg v (by omega)
        · rw [if_neg h1]
          by_cases h2 : a = i
          · have h3 : i ≤ a ∧ a < i + (k + 1) := by omega
            rw [if_pos h2, if_pos h3]
            subst h2
            exact congrArg v (by omega)
          · have h3 : ¬(i ≤ a ∧ a < i + (k + 1)) := by omega
            rw [if_neg h2, if_neg h3]

theorem fx65_go_spec (k : Nat) : ∀ (idx : Nat) (s : Chip),
    fx65_go k idx s =
      { s with
        v := fun j =>
          if idx ≤ j ∧ j < idx + k then s.memory (s.i + (j - idx)) else s.v j,
        i := s.i + k } := by
  induction k with
  | zero =>
      intro idx s
      cases s
      simp only [fx65_go, Chip.mk.injEq, true_and, and_true]
      refine ⟨?_, by omega⟩
      funext j
      rw [if_neg (by omega)]
  | succ k ih =>
      intro idx s
      cases s with
      | mk v i pc gfx keys stack memory dt st =>
        simp only [fx65_go]
        rw [ih (idx + 1)]
        simp only [Chip.mk.injEq, true_and, and_true]
        refine ⟨?_, by omega⟩
        funext j
        simp only [vset]
        by_cases h1 : idx + 1 ≤ j ∧ j < idx + 1 + k
        · have h2 : idx ≤ j ∧ j < idx + (k + 1) := by omega
          rw [if_pos h1, if_pos h2]
          exact congrArg memory (by omega)
        · rw [if_neg h1]
          by_cases h2 : j = idx
          · have h3 : idx ≤ j ∧ j < idx + (k + 1) := by omega
            rw [if_pos h2, if_pos h3]
            subst h2
            exact congrArg memory (by omega)
          · have h3 : ¬(idx ≤ j ∧ j < idx + (k + 1)) := by omega
            rw [if_neg h2, if_neg h3]

theorem read_first_lt (w : Nat) : read_first w < 16 :=
  Nat.mod_lt _ (by norm_num)

theorem decode_eq_0 (w : Nat) (h : read_first w = 0) :
    decode w = (if read_nnn w = 0x0E0 then DecodeResult.ok OpCode._00E0
      else if read_nnn w = 0x0EE then DecodeResult.ok OpCode._00EE
      else DecodeResult.ok (OpCode._0NNN (read_nnn w))) := by
  unfold decode
  rw [if_pos h]

theorem decode_eq_1 (w : Nat) (h : read_first w = 1) :
    decode w = DecodeResult.ok (OpCode._1NNN (read_nnn w)) := by
  unfold decode
  rw [if_neg (show ¬read_first w = 0 by omega),
    if_pos h]

theorem decode_eq_2 (w : Nat) (h : read_first w = 2) :
    decode w = DecodeResult.ok (OpCode._2NNN (read_nnn w)) := by
  unfold decode
  rw [if_neg (show ¬read_first w = 0 by omega),
    if_neg (show ¬read_first w = 1 by omega),
    if_pos h]

theorem decode_eq_3 (w : Nat) (h : read_first w = 3) :
    decode w = DecodeResult.ok (OpCode._3XNN (read_x w) (read_nn w)) := by
  unfold decode
  rw [if_neg (show ¬read_first w = 0 by omega),
    if_neg (show ¬read_first w = 1 by omega),
    if_neg (show ¬read_first w = 2 by omega),
    if_pos h]

theorem decode_eq_4 (w : Nat) (h : read_first w = 4) :
    decode w = DecodeResult.ok (OpCode._4XNN (read_x w) (read_nn w)) := by
  unfold decode
  rw [if_neg (show ¬read_first w = 0 by omega),
    if_neg (show ¬read_first w = 1 by omega),
    if_neg (show ¬read_first w = 2 by omega),
    if_neg (show ¬read_first w = 3 by omega),
    if_pos h]

theorem decode_eq_5 (w : Nat) (h : read_first w = 5) :
    decode w = (if read_last w = 0 then DecodeResult.ok (OpCode._5XY0 (read_x w) (read_y w))
      else DecodeResult.err VmErr.malformedOp) := by
  unfold decode
  rw [if_neg (show ¬read_first w = 0 by omega),
    if_neg (show ¬read_first w = 1 by omega),
    if_neg (show ¬read_first w = 2 by omega),
    if_neg (show ¬read_first w = 3 by omega),
    if_neg (show ¬read_first w = 4 by omega),
    if_pos h]

theorem decode_eq_6 (w : Nat) (h : read_first w = 6) :
    decode w = DecodeResult.ok (OpCode._6XNN (read_x w) (read_nn w)) := by
  unfold decode
  rw [if_neg (show ¬read_first w = 0 by omega),
    if_neg (show ¬read_first w = 1 by omega),
    if_neg (show ¬read_first w = 2 by omega),
    if_neg (show ¬read_first w = 3 by omega),
    if_neg (show ¬read_first w = 4 by omega),
    if_neg (show ¬read_first w = 5 by omega),
    if_pos h]

theorem decode_eq_7 (w : Nat) (h : read_first w = 7) :
    decode w = DecodeResult.ok (OpCode._7XNN (read_x w) (read_nn w)) := by
  unfold decode
  rw [if_neg (show ¬read_first w = 0 by omega),
    if_neg (show ¬read_first w = 1 by omega),
    if_neg (show ¬read_first w = 2 by omega),
    if_neg (show ¬read_first w = 3 by omega),
    if_neg (show ¬read_first w = 4 by omega),
    if_neg (show ¬read_first w = 5 by omega),
    if_neg (show ¬read_first w = 6 by omega),
    if_pos h]

theorem decode_eq_8 (w : Nat) (h : read_first w = 8) :
    decode w = (if read_last w = 0x0 then DecodeResult.ok (OpCode._8XY0 (read_x w) (read_y w))
      else if read_last w = 0x1 then DecodeResult.ok (OpCode._8XY1 (read_x w) (read_y w))
      else if read_last w = 0x2 then DecodeResult.ok (OpCode._8XY2 (read_x w) (read_y w))
      else if read_last w = 0x3 then DecodeResult.ok (OpCode._8XY3 (read_x w) (read_y w))
      else if read_last w = 0x4 then DecodeResult.ok (OpCode._8XY4 (read_x w) (read_y w))
      else if read_last w = 0x5 then DecodeResult.ok (OpCode._8XY5 (read_x w) (read_y w))
      else if read_last w = 0x6 then DecodeResult.ok (OpCode._8XY6 (read_x w) (read_y w))
      else if read_last w = 0x7 then DecodeResult.ok (OpCode._8XY7 (read_x w) (read_y w))
      else if read_last w = 0xE then DecodeResult.ok (OpCode._8XYE (read_x w) (read_y w))
      else DecodeResult.err VmErr.malformedOp) := by
  unfold decode
  rw [if_neg (show ¬read_first w = 0 by omega),
    if_neg (show ¬read_first w = 1 by omega),
    if_neg (show ¬read_first w = 2 by omega),
    if_neg (show ¬read_first w = 3 by omega),
    if_neg (show ¬read_first w = 4 by omega),
    if_neg (show ¬read_first w = 5 by omega),
    if_neg (show ¬read_first w = 6 by omega),
    if_neg (show ¬read_first w = 7 by omega),
    if_pos h]

theorem decode_eq_9 (w : Nat) (h : read_first w = 9) :
    decode w = (if read_last w = 0 then DecodeResult.ok (OpCode._9XY0 (read_x w) (read_y w))
      else DecodeResult.err VmErr.malformedOp) := by
  unfold decode
  rw [if_neg (show ¬read_first w = 0 by omega),
    if_neg (show ¬read_first w = 1 by omega),
    if_neg (show ¬read_first w = 2 by omega),
    if_neg (show ¬read_first w = 3 by omega),
    if_neg (show ¬read_first w = 4 by omega),
    if_neg (show ¬read_first w = 5 by omega),
    if_neg (show ¬read_first w = 6 by omega),
    if_neg (show ¬read_first w = 7 by omega),
    if_neg (show ¬read_first w = 8 by omega),
    if_pos h]

theorem decode_eq_10 (w : Nat) (h : read_first w = 10) :
    decode w = DecodeResult.ok (OpCode._ANNN (read_nnn w)) := by
  unfold decode
  rw [if_neg (show ¬read_first w = 0 by omega),
    if_neg (show ¬read_first w = 1 by omega),
    if_neg (show ¬read_first w = 2 by omega),
    if_neg (show ¬read_first w = 3 by omega),
    if_neg (show ¬read_first w = 4 by omega),
    if_neg (show ¬read_first w = 5 by omega),
    if_neg (show ¬read_first w = 6 by omega),
    if_neg (show ¬read_first w = 7 by omega),
    if_neg (show ¬read_first w = 8 by omega),
    if_neg (show ¬read_first w = 9 by omega),
    if_pos h]

theorem decode_eq_11 (w : Nat) (h : read_first w = 11) :
    decode w = DecodeResult.ok (OpCode._BNNN (read_nnn w)) := by
  unfold decode
  rw [if_neg (show ¬read_first w = 0 by omega),
    if_neg (show ¬read_first w = 1 by omega),
    if_neg (show ¬read_first w = 2 by omega),
    if_neg (show ¬read_first w = 3 by omega),
    if_neg (show ¬read_first w = 4 by omega),
    if_neg (show ¬read_first w = 5 by omega),
    if_neg (show ¬read_first w = 6 by omega),
    if_neg (show ¬read_first w = 7 by omega),
    if_neg (show ¬read_first w = 8 by omega),
    if_neg (show ¬read_first w = 9 by omega),
    if_neg (show ¬read_first w = 10 by omega),
    if_pos h]

theorem decode_eq_12 (w : Nat) (h : read_first w = 12) :
    decode w = DecodeResult.ok (OpCode._CXNN (read_x w) (read_nn w)) := by
  unfold decode
  rw [if_neg (show ¬read_first w = 0 by omega),
    if_neg (show ¬read_first w = 1 by omega),
    if_neg (show ¬read_first w = 2 by omega),
    if_neg (show ¬read_first w = 3 by omega),
    if_neg (show ¬read_first w = 4 by omega),
    if_neg (show ¬read_first w = 5 by omega),
    if_neg (show ¬read_first w = 6 by omega),
    if_neg (show ¬read_first w = 7 by omega),
    if_neg (show ¬read_first w = 8 by omega),
    if_neg (show ¬read_first w = 9 by omega),
    if_neg (show ¬read_first w = 10 by omega),
    if_neg (show ¬read_first w = 11 by omega),
    if_pos h]

theorem decode_eq_13 (w : Nat) (h : read_first w = 13) :
    decode w = DecodeResult.ok (OpCode._DXYN (read_x w) (read_y w) (read_last w)) := by
  unfold decode
  rw [if_neg (show ¬read_first w = 0 by omega),
    if_neg (show ¬read_first w = 1 by omega),
    if_neg (show ¬read_first w = 2 by omega),
    if_neg (show ¬read_first w = 3 by omega),
    if_neg (show ¬read_first w = 4 by omega),
    if_neg (show ¬read_first w = 5 by omega),
    if_neg (show ¬read_first w = 6 by omega),
    if_neg (show ¬read_first w = 7 by omega),
    if_neg (show ¬read_first w = 8 by omega),
    if_neg (show ¬read_first w = 9 by omega),
    if_neg (show ¬read_first w = 10 by omega),
    if_neg (show ¬read_first w = 11 by omega),
    if_neg (show ¬read_first w = 12 by omega),
    if_pos h]

theorem decode_eq_14 (w : Nat) (h : read_first w = 14) :
    decode w = (if read_nn w = 0x9E then DecodeResult.ok (OpCode._EX9E (read_x w))
      else if read_nn w = 0xA1 then DecodeResult.ok (OpCode._EXA1 (read_x w))
      else DecodeResult.err VmErr.malformedOp) := by
  unfold decode
  rw [if_neg (show ¬read_first w = 0 by omega),
    if_neg (show ¬read_first w = 1 by omega),
    if_neg (show ¬read_first w = 2 by omega),
    if_neg (show ¬read_first w = 3 by omega),
    if_neg (show ¬read_first w = 4 by omega),
    if_neg (show ¬read_first w = 5 by omega),
    if_neg (show ¬read_first w = 6 by omega),
    if_neg (show ¬read_first w = 7 by omega),
    if_neg (show ¬read_first w = 8 by omega),
    if_neg (show ¬read_first w = 9 by omega),
    if_neg (show ¬read_first w = 10 by omega),
    if_neg (show ¬read_first w = 11 by omega),
    if_neg (show ¬read_first w = 12 by omega),
    if_neg (show ¬read_first w = 13 by omega),
    if_pos h]

theorem decode_eq_15 (w : Nat) (h : read_first w = 15) :
    decode w = (if read_nn w = 0x07 then DecodeResult.ok (OpCode._FX07 (read_x w))
      else if read_nn w = 0x0A then DecodeResult.ok (OpCode._FX0A (read_x w))
      else if read_nn w = 0x15 then DecodeResult.ok (OpCode._FX15 (read_x w))
      else if read_nn w = 0x18 then DecodeResult.ok (OpCode._FX18 (read_x w))
      else if read_nn w = 0x1E then DecodeResult.ok (OpCode._FX1E (read_x w))
      else if read_nn w = 0x29 then DecodeResult.ok (OpCode._FX29 (read_x w))
      else if read_nn w = 0x33 then DecodeResult.ok (OpCode._FX33 (read_x w))
      else if read_nn w = 0x55 then DecodeResult.ok (OpCode._FX55 (read_x w))
      else if read_nn w = 0x65 then DecodeResult.ok (OpCode._FX65 (read_x w))
      else DecodeResult.err VmErr.malformedOp) := by
  unfold decode
  rw [if_neg (show ¬read_first w = 0 by omega),
    if_neg (show ¬read_first w = 1 by omega),
    if_neg (show ¬read_first w = 2 by omega),
    if_neg (show ¬read_first w = 3 by omega),
    if_neg (show ¬read_first w = 4 by omega),
    if_neg (show ¬read_first w = 5 by omega),
    if_neg (show ¬read_first w = 6 by omega),
    if_neg (show ¬read_first w = 7 by omega),
    if_neg (show ¬read_first w = 8 by omega),
    if_neg (show ¬read_first w = 9 by omega),
    if_neg (show ¬read_first w = 10 by omega),
    if_neg (show ¬read_first w = 11 by omega),
    if_neg (show ¬read_first w = 12 by omega),
    if_neg (show ¬read_first w = 13 by omega),
    if_neg (show ¬read_first w = 14 by omega),
    if_pos h]

theorem read_first_cases (w : Nat) :
    read_first w = 0 ∨ read_first w = 1 ∨ read_first w = 2 ∨ read_first w = 3
    ∨ read_first w = 4 ∨ read_first w = 5 ∨ read_first w = 6 ∨ read_first w = 7
    ∨ read_first w = 8 ∨ read_first w = 9 ∨ read_first w = 10 ∨ read_first w = 11
    ∨ read_first w = 12 ∨ read_first w = 13 ∨ read_first w = 14 ∨ read_first w = 15 := by
  have := read_first_lt w
  omega

set_option maxHeartbeats 1600000 in
theorem decode_ne_dead (w : Nat) : decode w ≠ DecodeResult.dead := by
  rcases read_first_cases w with hf|hf|hf|hf|hf|hf|hf|hf|hf|hf|hf|hf|hf|hf|hf|hf
  · rw [decode_eq_0 w hf]; split_ifs <;> simp
  · rw [decode_eq_1 w hf]; simp
  · rw [decode_eq_2 w hf]; simp
  · rw [decode_eq_3 w hf]; simp
  · rw [decode_eq_4 w hf]; simp
  · rw [decode_eq_5 w hf]; split_ifs <;> simp
  · rw [decode_eq_6 w hf]; simp
  · rw [decode_eq_7 w hf]; simp
  · rw [decode_eq_8 w hf]; split_ifs <;> simp
  · rw [decode_eq_9 w hf]; split_ifs <;> simp
  · rw [decode_eq_10 w hf]; simp
  · rw [decode_eq_11 w hf]; simp
  · rw [decode_eq_12 w hf]; simp
  · rw [decode_eq_13 w hf]; simp
  · rw [decode_eq_14 w hf]; split_ifs <;> simp
  · rw [decode_eq_15 w hf]; split_ifs <;> simp

set_option maxHeartbeats 1600000 in
theorem decode_isErr_iff (w : Nat) : (decode w).isErr = true ↔ malformed_claim w := by
  rcases read_first_cases w with hf|hf|hf|hf|hf|hf|hf|hf|hf|hf|hf|hf|hf|hf|hf|hf
  · rw [decode_eq_0 w hf]; split_ifs <;> simp [DecodeResult.isErr, malformed_claim, hf] <;> omega
  · rw [decode_eq_1 w hf]; simp [DecodeResult.isErr, malformed_claim, hf]
  · rw [decode_eq_2 w hf]; simp [DecodeResult.isErr, malformed_claim, hf]
  · rw [decode_eq_3 w hf]; simp [DecodeResult.isErr, malformed_claim, hf]
  · rw [decode_eq_4 w hf]; simp [DecodeResult.isErr, malformed_claim, hf]
  · rw [decode_eq_5 w hf]; split_ifs <;> simp [DecodeResult.isErr, malformed_claim, hf] <;> omega
  · rw [decode_eq_6 w hf]; simp [DecodeResult.isErr, malformed_claim, hf]
  · rw [decode_eq_7 w hf]; simp [DecodeResult.isErr, malformed_claim, hf]
  · rw [decode_eq_8 w hf]; split_ifs <;> simp [DecodeResult.isErr, malformed_claim, hf] <;> omega
  · rw [decode_eq_9 w hf]; split_ifs <;> simp [DecodeResult.isErr, malformed_claim, hf] <;> omega
  · rw [decode_eq_10 w hf]; simp [DecodeResult.isErr, malformed_claim, hf]
  · rw [decode_eq_11 w hf]; simp [DecodeResult.isErr, malformed_claim, hf]
  · rw [decode_eq_12 w hf]; simp [DecodeResult.isErr, malformed_claim, hf]
  · rw [decode_eq_13 w hf]; simp [DecodeResult.isErr, malformed_claim, hf]
  · rw [decode_eq_14 w hf]; split_ifs <;> simp [DecodeResult.isErr, malformed_claim, hf] <;> omega
  · rw [decode_eq_15 w hf]; split_ifs <;> simp [DecodeResult.isErr, malformed_claim, hf] <;> omega

set_option maxHeartbeats 1600000 in
theorem decode_annn_lt (w nnn : Nat) (h : decode w = DecodeResult.ok (OpCode._ANNN nnn)) :
    nnn < 4096 := by
  rcases read_first_cases w with hf|hf|hf|hf|hf|hf|hf|hf|hf|hf|hf|hf|hf|hf|hf|hf
  · rw [decode_eq_0 w hf] at h; split_ifs at h <;> simp_all
  · rw [decode_eq_1 w hf] at h; simp_all
  · rw [decode_eq_2 w hf] at h; simp_all
  · rw [decode_eq_3 w hf] at h; simp_all
  · rw [decode_eq_4 w hf] at h; simp_all
  · rw [decode_eq_5 w hf] at h; split_ifs at h <;> simp_all
  · rw [decode_eq_6 w hf] at h; simp_all
  · rw [decode_eq_7 w hf] at h; simp_all
  · rw [decode_eq_8 w hf] at h; split_ifs at h <;> simp_all
  · rw [decode_eq_9 w hf] at h; split_ifs at h <;> simp_all
  · rw [decode_eq_10 w hf] at h
    simp only [DecodeResult.ok.injEq, OpCode._ANNN.injEq] at h
    subst h
    exact Nat.mod_lt _ (by norm_num)
  · rw [decode_eq_11 w hf] at h; simp_all
  · rw [decode_eq_12 w hf] at h; simp_all
  · rw [decode_eq_13 w hf] at h; simp_all
  · rw [decode_eq_14 w hf] at h; split_ifs at h <;> simp_all
  · rw [decode_eq_15 w hf] at h; split_ifs at h <;> simp_all

theorem list_any_congr {l : List Nat} {f g2 : Nat → Bool}
    (h : ∀ z ∈ l, f z = g2 z) : l.any f = l.any g2 := by
  induction l with
  | nil => rfl
  | cons a t ih =>
      simp only [List.any_cons, h a (by simp)]
      rw [ih (fun z hz => h z (by simp [hz]))]

theorem draw_rows_spec (i : Nat) (mem : Nat → Nat) (x y xi : Nat) (hxi : xi < 64)
    (k : Nat) : ∀ (b : Nat), b + k ≤ 32 → ∀ (col : Bool) (g : Gfx),
    draw_rows i mem x y xi (List.range' b k) (col, g) =
      (none,
       (col || (List.range' b k).any (fun yi => sprite_bit i mem x y xi yi && g xi yi),
        fun a c =>
          if a = xi ∧ b ≤ c ∧ c < b + k then
            Bool.xor (g a c) (sprite_bit i mem x y xi c)
          else g a c)) := by
  induction k with
  | zero =>
      intro b _ col g
      have hfun : (fun a c =>
          if a = xi ∧ b ≤ c ∧ c < b + 0 then
            Bool.xor (g a c) (sprite_bit i mem x y xi c)
          else g a c) = g := by
        funext a c
        rw [if_neg (by omega)]
      rw [hfun]
      simp [draw_rows]
  | succ k ih =>
      intro b hb col g
      rw [List.range'_succ]
      simp only [draw_rows]
      have hxb : xor_bit g xi b (sprite_bit i mem x y xi b) =
          some (fun a c =>
            if a = xi ∧ c = b then Bool.xor (g a c) (sprite_bit i mem x y xi b)
            else g a c) := by
        unfold xor_bit
        rw [if_pos ⟨hxi, by omega⟩]
      rw [hxb]
      dsimp only
      rw [ih (b + 1) (by omega)]
      congr 1
      congr 1
      · rw [List.any_cons, Bool.or_assoc]
        congr 1
        congr 1
        refine list_any_congr (fun z hz => ?_)
        rw [List.mem_range'_1] at hz
        rw [if_neg (by omega)]
      · funext a c
        by_cases h1 : a = xi ∧ b + 1 ≤ c ∧ c < b + 1 + k
        · rw [if_pos h1, if_neg (by omega), if_pos (by omega)]
        · rw [if_neg h1]
          by_cases h2 : a = xi ∧ c = b
          · rw [if_pos h2, if_pos (by omega)]
            rcases h2 with ⟨h2a, h2b⟩
            subst h2b
            rfl
          · rw [if_neg h2, if_neg (by omega)]

theorem draw_cols_spec (i : Nat) (mem : Nat → Nat) (x y b k : Nat) (hyk : b + k ≤ 32)
    (m : Nat) : ∀ (a2 : Nat), a2 + m ≤ 64 → ∀ (col : Bool) (g : Gfx),
    draw_cols i mem x y (List.range' b k) (List.range' a2 m) (col, g) =
      (none,
       (col || (List.range' a2 m).any (fun xi => (List.range' b k).any
           (fun yi => sprite_bit i mem x y xi yi && g xi yi)),
        fun a c =>
          if (a2 ≤ a ∧ a < a2 + m) ∧ (b ≤ c ∧ c < b + k) then
            Bool.xor (g a c) (sprite_bit i mem x y a c)
          else g a c)) := by
  induction m with
  | zero =>
      intro a2 _ col g
      have hfun : (fun a c =>
          if (a2 ≤ a ∧ a < a2 + 0) ∧ (b ≤ c ∧ c < b + k) then
            Bool.xor (g a c) (sprite_bit i mem x y a c)
          else g a c) = g := by
        funext a c
        rw [if_neg (by omega)]
      rw [hfun]
      simp [draw_cols]
  | succ m ih =>
      intro a2 ha2 col g
      rw [List.range'_succ]
      simp only [draw_cols]
      rw [draw_rows_spec i mem x y a2 (by omega) k b hyk col g]
      dsimp only
      rw [ih (a2 + 1) (by omega)]
      congr 1
      congr 1
      · rw [List.any_cons, Bool.or_assoc]
        congr 1
        congr 1
        refine list_any_congr (fun z hz => ?_)
        rw [List.mem_range'_1] at hz
        refine list_any_congr (fun z2 hz2 => ?_)
        rw [List.mem_range'_1] at hz2
        rw [if_neg (by omega)]
      · funext a c
        by_cases h1 : (a2 + 1 ≤ a ∧ a < a2 + 1 + m) ∧ (b ≤ c ∧ c < b + k)
        · rw [if_pos h1, if_neg (by omega), if_pos (by omega)]
        · rw [if_neg h1]
          by_cases h2 : a = a2 ∧ b ≤ c ∧ c < b + k
          · rw [if_pos h2, if_pos (by omega)]
            rcases h2 with ⟨h2a, _⟩
            subst h2a
            rfl
          · rw [if_neg h2, if_neg (by omega)]

theorem draw_ok (x y n : Nat) (s : Chip) (hn : s.i + n < 4096) :
    draw_n_at_vx_vy x y n s =
      (none,
       { s with
         gfx := fun a c =>
           if (s.v x % 64 ≤ a ∧ a < s.v x % 64 + (min (s.v x % 64 + 8) 64 - s.v x % 64)) ∧
              (s.v y % 32 ≤ c ∧ c < s.v y % 32 + (min (s.v y % 32 + n) 32 - s.v y % 32)) then
             Bool.xor (s.gfx a c) (sprite_bit s.i s.memory (s.v x % 64) (s.v y % 32) a c)
           else s.gfx a c,
         v := vset s.v 15
           (if (List.range' (s.v x % 64) (min (s.v x % 64 + 8) 64 - s.v x % 64)).any
               (fun xi => (List.range' (s.v y % 32) (min (s.v y % 32 + n) 32 - s.v y % 32)).any
                 (fun yi => sprite_bit s.i s.memory (s.v x % 64) (s.v y % 32) xi yi &&
                   s.gfx xi yi))
            then 1 else 0) }) := by
  unfold draw_n_at_vx_vy
  rw [if_neg (by omega)]
  dsimp only
  rw [draw_cols_spec s.i s.memory (s.v x % 64) (s.v y % 32) (s.v y % 32)
    (min (s.v y % 32 + n) 32 - s.v y % 32) (by omega)
    (min (s.v x % 64 + 8) 64 - s.v x % 64) (s.v x % 64) (by omega) false s.gfx]
  dsimp only
  rw [Bool.false_or]

theorem draw_err (x y n : Nat) (s : Chip) (h : 4096 ≤ s.i + n) :
    draw_n_at_vx_vy x y n s = (some VmErr.readOutOfSpace, s) := by
  unfold draw_n_at_vx_vy
  rw [if_pos h]

/-- C3 counterexample: at `I = 4091`, `N = 5` we have `I + N = 4096`, which is
not `> 4096`, so the claim asserts the draw succeeds; the code returns the
out-of-address-space error (`draw_n_at_vx_vy` rejects `I + N >= 4096`). -/
theorem c3_boundary_counterexample :
    (draw_n_at_vx_vy 0 0 5 { load [] with i := 4091 }).1 = some VmErr.readOutOfSpace
    ∧ ({ load [] with i := 4091 }).i + 5 = 4096 := by
  constructor
  · rfl
  · rfl

/-- C3 (amended): executing DXYN returns the OutOfAddressSpace error if and
only if `I + N ≥ 4096` (not `> 4096`); in particular when `I + N = 4096` the
draw errors, and the draw succeeds exactly when `I + N < 4096` (reading
sprite rows `memory[I]` through `memory[I+N-1]`). -/
theorem c3_dxyn_bound_check (x y n : Nat) (s : Chip) :
    ((draw_n_at_vx_vy x y n s).1 = some VmErr.readOutOfSpace ↔ 4096 ≤ s.i + n)
    ∧ ((draw_n_at_vx_vy x y n s).1 = none ↔ s.i + n < 4096) := by
  by_cases h : 4096 ≤ s.i + n
  · rw [draw_err x y n s h]
    exact ⟨⟨fun _ => h, fun _ => rfl⟩,
      ⟨fun hc => Option.noConfusion hc, fun hlt => absurd h (by omega)⟩⟩
  · rw [draw_ok x y n s (by omega)]
    refine ⟨⟨fun hc => Option.noConfusion hc, fun hge => absurd hge (by omega)⟩, ?_⟩
    exact ⟨fun _ => by omega, fun _ => rfl⟩

/-- C4: for every VM state with `I + N` in bounds, DXYN draws with start
position `sx = Vx mod 64`, `sy = Vy mod 32`; it XORs source bit `c`
(MSB-first) of `memory[I+r]` into exactly the pixels `(sx+c, sy+r)` for
`r < min N (32-sy)` and `c < min 8 (64-sx)` (clipped, never wrapped), sets
`VF` to 1 iff some drawn source 1-bit met a framebuffer 1-bit, leaves every
other framebuffer pixel and every other register (and `pc`, `I`, `memory`,
the stack) unchanged. -/
theorem c4_dxyn_pixels (x y n : Nat) (s : Chip) (hn : s.i + n < 4096) :
    (draw_n_at_vx_vy x y n s).1 = none
    ∧ (∀ cc rr, cc < min 8 (64 - s.v x % 64) → rr < min n (32 - s.v y % 32) →
        (draw_n_at_vx_vy x y n s).2.gfx (s.v x % 64 + cc) (s.v y % 32 + rr)
          = Bool.xor (s.gfx (s.v x % 64 + cc) (s.v y % 32 + rr))
              (Nat.testBit (s.memory (s.i + rr)) (7 - cc)))
    ∧ (∀ a c, ¬((s.v x % 64 ≤ a ∧ a < s.v x % 64 + min 8 (64 - s.v x % 64)) ∧
          (s.v y % 32 ≤ c ∧ c < s.v y % 32 + min n (32 - s.v y % 32))) →
        (draw_n_at_vx_vy x y n s).2.gfx a c = s.gfx a c)
    ∧ ((∃ rr cc, rr < min n (32 - s.v y % 32) ∧ cc < min 8 (64 - s.v x % 64) ∧
          Nat.testBit (s.memory (s.i + rr)) (7 - cc) = true ∧
          s.gfx (s.v x % 64 + cc) (s.v y % 32 + rr) = true) →
        (draw_n_at_vx_vy x y n s).2.v 15 = 1)
    ∧ ((¬∃ rr cc, rr < min n (32 - s.v y % 32) ∧ cc < min 8 (64 - s.v x % 64) ∧
          Nat.testBit (s.memory (s.i + rr)) (7 - cc) = true ∧
          s.gfx (s.v x % 64 + cc) (s.v y % 32 + rr) = true) →
        (draw_n_at_vx_vy x y n s).2.v 15 = 0)
    ∧ (∀ j, j ≠ 15 → (draw_n_at_vx_vy x y n s).2.v j = s.v j)
    ∧ (draw_n_at_vx_vy x y n s).2.pc = s.pc
    ∧ (draw_n_at_vx_vy x y n s).2.i = s.i
    ∧ (draw_n_at_vx_vy x y n s).2.memory = s.memory
    ∧ (draw_n_at_vx_vy x y n s).2.stack = s.stack := by
  rw [draw_ok x y n s hn]
  have hsx : s.v x % 64 < 64 := Nat.mod_lt _ (by norm_num)
  have hsy : s.v y % 32 < 32 := Nat.mod_lt _ (by norm_num)
  have hany : ((List.range' (s.v x % 64) (min (s.v x % 64 + 8) 64 - s.v x % 64)).any
      (fun xi => (List.range' (s.v y % 32) (min (s.v y % 32 + n) 32 - s.v y % 32)).any
        (fun yi => sprite_bit s.i s.memory (s.v x % 64) (s.v y % 32) xi yi &&
          s.gfx xi yi)) = true)
      ↔ (∃ rr cc, rr < min n (32 - s.v y % 32) ∧ cc < min 8 (64 - s.v x % 64) ∧
          Nat.testBit (s.memory (s.i + rr)) (7 - cc) = true ∧
          s.gfx (s.v x % 64 + cc) (s.v y % 32 + rr) = true) := by
    rw [List.any_eq_true]
    constructor
    · rintro ⟨xi, hxi, hin⟩
      rw [List.mem_range'_1] at hxi
      rw [List.any_eq_true] at hin
      rcases hin with ⟨yi, hyi, hpay⟩
      rw [List.mem_range'_1] at hyi
      rw [Bool.and_eq_true] at hpay
      refine ⟨yi - s.v y % 32, xi - s.v x % 64, by omega, by omega, ?_, ?_⟩
      · have e1 : s.i + (yi - s.v y % 32) = s.i + (yi - s.v y % 32) := rfl
        exact hpay.1
      · rw [show s.v x % 64 + (xi - s.v x % 64) = xi from by omega,
          show s.v y % 32 + (yi - s.v y % 32) = yi from by omega]
        exact hpay.2
    · rintro ⟨rr, cc, hrr, hcc, hbit, hpix⟩
      refine ⟨s.v x % 64 + cc, by rw [List.mem_range'_1]; omega, ?_⟩
      rw [List.any_eq_true]
      refine ⟨s.v y % 32 + rr, by rw [List.mem_range'_1]; omega, ?_⟩
      rw [Bool.and_eq_true]
      refine ⟨?_, hpix⟩
      unfold sprite_bit
      rw [show s.v y % 32 + rr - s.v y % 32 = rr from by omega,
        show s.v x % 64 + cc - s.v x % 64 = cc from by omega]
      exact hbit
  refine ⟨rfl, ?_, ?_, ?_, ?_, ?_, rfl, rfl, rfl, rfl⟩
  · intro cc rr hcc hrr
    dsimp only
    rw [if_pos (by constructor <;> constructor <;> omega)]
    unfold sprite_bit
    rw [show s.v y % 32 + rr - s.v y % 32 = rr from by omega,
      show s.v x % 64 + cc - s.v x % 64 = cc from by omega]
  · intro a c hno
    dsimp only
    rw [if_neg (by omega)]
  · intro hex
    dsimp only [vset]
    rw [if_pos rfl, if_pos (hany.2 hex)]
  · intro hnex
    dsimp only [vset]
    rw [if_pos rfl, if_neg ?hc]
    case hc =>
      intro hB
      exact hnex (hany.1 hB)
  · intro j hj
    dsimp only [vset]
    rw [if_neg hj]

theorem pc_increment_err_eq (s : Chip) (h : (pc_increment s).1.isSome = true) :
    (pc_increment s).2 = s := by
  unfold pc_increment at *
  split_ifs at h ⊢
  · simp at h
  · rfl

theorem read_opcode_ok_pc (s : Chip) (op : OpCode)
    (h : read_opcode s = DecodeResult.ok op) : s.pc ≤ 4094 := by
  unfold read_opcode at h
  split_ifs at h with hp
  · exact hp

theorem read_opcode_ne_dead (s : Chip) : read_opcode s ≠ DecodeResult.dead := by
  unfold read_opcode
  split_ifs
  · exact decode_ne_dead _
  · simp

/-- Any instruction handler that reports an error leaves the state exactly
as it was at the handler entry, provided `pc ≤ 4094` (which the fetch step
of `tick_chip` guarantees); `FX55`/`FX65` check their bound before writing,
and `DXYN` checks its bound before drawing, so there is no partial
mutation on any error path. -/
theorem exec_op_err_eq (rand : Nat) (op : OpCode) (s : Chip) (hpc : s.pc ≤ 4094)
    (h : (exec_op rand op s).1.isSome = true) : (exec_op rand op s).2 = s := by
  cases op with
  | _0NNN nnn => rfl
  | _00E0 => simp [exec_op, clear_screen] at h
  | _00EE =>
      rcases hst : s.stack with _ | ⟨a, rest⟩
      · simp [exec_op, subroutine_return, hst]
      · simp [exec_op, subroutine_return, hst] at h
  | _1NNN nnn =>
      simp only [exec_op] at h ⊢
      unfold jump_to at h ⊢
      split_ifs at h ⊢ <;> first | rfl | simp at h
  | _2NNN nnn =>
      simp only [exec_op] at h ⊢
      unfold exec_subroutine_at at h ⊢
      split_ifs at h ⊢ <;> first | rfl | simp at h
  | _3XNN x nn =>
      simp only [exec_op] at h ⊢
      unfold skip_if_vx_eq_nn pc_increment at h ⊢
      split_ifs at h ⊢ <;> first | rfl | simp at h
  | _4XNN x nn =>
      simp only [exec_op] at h ⊢
      unfold skip_if_vx_ne_nn pc_increment at h ⊢
      split_ifs at h ⊢ <;> first | rfl | simp at h
  | _5XY0 x y =>
      simp only [exec_op] at h ⊢
      unfold skip_if_vx_eq_vy pc_increment at h ⊢
      split_ifs at h ⊢ <;> first | rfl | simp at h
  | _6XNN x nn => simp [exec_op, assign_vx_nn] at h
  | _7XNN x nn => simp [exec_op, assign_add_vx_nn] at h
  | _8XY0 x y => simp [exec_op, assign_vx_vy] at h
  | _8XY1 x y => simp [exec_op, assign_or_vx_vy] at h
  | _8XY2 x y => simp [exec_op, assign_and_vx_vy] at h
  | _8XY3 x y => simp [exec_op, assign_xor_vx_vy] at h
  | _8XY4 x y => simp [exec_op, assign_add_vx_vy] at h
  | _8XY5 x y => simp [exec_op, assign_sub_vx_vy] at h
  | _8XY6 x y => simp [exec_op, assign_vx_vy_shifted_r] at h
  | _8XY7 x y => simp [exec_op, assign_vx_vy_sub_vx] at h
  | _8XYE x y => simp [exec_op, assign_vx_vy_shifted_l] at h
  | _9XY0 x y =>
      simp only [exec_op] at h ⊢
      unfold skip_if_vx_ne_vy pc_increment at h ⊢
      split_ifs at h ⊢ <;> first | rfl | simp at h
  | _ANNN nnn => simp [exec_op, assign_i_nnn] at h
  | _BNNN nnn =>
      simp only [exec_op] at h ⊢
      unfold jump_to_nnn_add_v0 at h ⊢
      split_ifs at h ⊢ <;> first | rfl | simp at h
  | _CXNN x nn => simp [exec_op, assign_vx_ranom_and_nn] at h
  | _DXYN x y n =>
      simp only [exec_op] at h ⊢
      by_cases hd : 4096 ≤ s.i + n
      · rw [draw_err x y n s hd]
      · rw [draw_ok x y n s (by omega)] at h
        simp at h
  | _EX9E x =>
      simp only [exec_op] at h ⊢
      unfold skip_if_vx_in_keys pc_increment at h ⊢
      split_ifs at h ⊢ <;> first | rfl | simp at h
  | _EXA1 x =>
      simp only [exec_op] at h ⊢
      unfold skip_if_vx_not_in_keys pc_increment at h ⊢
      split_ifs at h ⊢ <;> first | rfl | simp at h
  | _FX07 x => simp [exec_op, assign_vx_delay_t] at h
  | _FX0A x =>
      simp only [exec_op] at h
      unfold assign_vx_wait_for_key at h
      cases hf : (List.range 16).find? (fun k => s.keys k = KeyState.Released) with
      | none => rw [hf] at h; simp at h
      | some key => rw [hf] at h; simp [pc_increment, hpc] at h
  | _FX15 x => simp [exec_op, assign_delay_t_vx] at h
  | _FX18 x => simp [exec_op, assign_sound_t_vx] at h
  | _FX1E x =>
      simp only [exec_op] at h ⊢
      unfold assign_add_i_vx at h ⊢
      split_ifs at h ⊢ <;> first | rfl | simp at h
  | _FX29 x => simp [exec_op, assign_i_addr_of_sprite_vx] at h
  | _FX33 x =>
      simp only [exec_op] at h ⊢
      unfold assign_mem_at_i_bcd_of_vx at h ⊢
      split_ifs at h ⊢ <;> first | rfl | simp at h
  | _FX55 x =>
      simp only [exec_op] at h ⊢
      unfold assign_mem_at_i_v0_to_vx at h ⊢
      split_ifs at h ⊢ <;> first | rfl | simp at h
  | _FX65 x =>
      simp only [exec_op] at h ⊢
      unfold assign_v0_to_vx_mem_at_i at h ⊢
      split_ifs at h ⊢ <;> first | rfl | simp at h

theorem execute_tail_eq (rand : Nat) (op : OpCode) (s : Chip)
    (ht : op_uses_tail op = true) :
    execute rand op s =
      ((match (exec_op rand op s).1 with
        | some e => some e
        | none => (pc_increment (exec_op rand op s).2).1),
       (pc_increment (exec_op rand op s).2).2) := by
  unfold execute
  dsimp only
  rw [if_pos ht]

theorem execute_notail_eq (rand : Nat) (op : OpCode) (s : Chip)
    (ht : op_uses_tail op = false) :
    execute rand op s = exec_op rand op s := by
  unfold execute
  dsimp only
  rw [if_neg (by simp [ht])]

theorem tick_chip_ok_eq (raw : Nat → Bool) (rand : Nat) (s : Chip) (op : OpCode)
    (hro : read_opcode (update_keys raw s) = DecodeResult.ok op) :
    tick_chip raw rand s =
      (execute rand op (update_keys raw s),
       [(execute rand op (update_keys raw s)).2.gfx]) := by
  unfold tick_chip
  dsimp only
  rw [hro]

theorem tick_chip_err_eq (raw : Nat → Bool) (rand : Nat) (s : Chip) (e : VmErr)
    (hro : read_opcode (update_keys raw s) = DecodeResult.err e) :
    tick_chip raw rand s =
      ((some e, update_keys raw s), [(update_keys raw s).gfx]) := by
  unfold tick_chip
  dsimp only
  rw [hro]

/-- C1 counterexample: executing the tick for `00EE` on an empty stack at
`PC = 0x200` returns the return-without-call error, yet `PC` ends at
`0x202`, not the `0x200` it held at the failing handler entry: the trailing
`pc_increment` argument of `Result::and` is evaluated eagerly even though
`subroutine_return` failed. -/
theorem c1_pc_advance_counterexample :
    (tick_chip (fun _ => false) 0 (load [0x00, 0xEE])).1.1 = some VmErr.returnWithoutCall
    ∧ (update_keys (fun _ => false) (load [0x00, 0xEE])).pc = 0x200
    ∧ (update_keys (fun _ => false) (load [0x00, 0xEE])).stack = []
    ∧ (tick_chip (fun _ => false) 0 (load [0x00, 0xEE])).1.2.pc = 0x202 := by
  refine ⟨?_, rfl, rfl, ?_⟩
  · rfl
  · rfl

/-- C1 (amended): if `tick_chip` returns an error, the resulting state is
exactly the state at the failing operation entry, with one deviation from
the claim: when the failing handler is dispatched through the common
`.and(self.pc_increment())` tail, the eagerly evaluated `pc_increment`
still runs after the handler error, so `PC` is additionally advanced (the
rest of the state is untouched); fetch/decode errors and the handlers that
manage `PC` themselves (`0NNN`, `1NNN`, `2NNN`, `BNNN`, `FX0A`) leave the
state exactly as at entry.  `FX55`/`FX65` validate bounds up front, so the
partial-write exception in the claim never materialises. -/
theorem c1_error_abort_state (raw : Nat → Bool) (rand : Nat) (s : Chip)
    (h : ((tick_chip raw rand s).1.1).isSome = true) :
    ((∃ e, read_opcode (update_keys raw s) = DecodeResult.err e)
        ∧ (tick_chip raw rand s).1.2 = update_keys raw s)
    ∨ (∃ op, read_opcode (update_keys raw s) = DecodeResult.ok op ∧
        (((exec_op rand op (update_keys raw s)).1.isSome = true
            ∧ op_uses_tail op = false
            ∧ (tick_chip raw rand s).1.2 = update_keys raw s)
         ∨ ((exec_op rand op (update_keys raw s)).1.isSome = true
            ∧ op_uses_tail op = true
            ∧ (exec_op rand op (update_keys raw s)).2 = update_keys raw s
            ∧ (tick_chip raw rand s).1.2 = (pc_increment (update_keys raw s)).2)
         ∨ ((exec_op rand op (update_keys raw s)).1 = none
            ∧ op_uses_tail op = true
            ∧ (pc_increment (exec_op rand op (update_keys raw s)).2).1.isSome = true
            ∧ (tick_chip raw rand s).1.2 = (exec_op rand op (update_keys raw s)).2))) := by
  rcases hro : read_opcode (update_keys raw s) with op | e | _
  · right
    refine ⟨op, rfl, ?_⟩
    have hpc : (update_keys raw s).pc ≤ 4094 := read_opcode_ok_pc _ _ hro
    rw [tick_chip_ok_eq raw rand s op hro] at h ⊢
    by_cases ht : op_uses_tail op = true
    · rw [execute_tail_eq rand op (update_keys raw s) ht] at h ⊢
      rcases hh : (exec_op rand op (update_keys raw s)).1 with _ | e2
      · right
        right
        simp only [hh] at h ⊢
        exact ⟨trivial, ht, h, pc_increment_err_eq _ h⟩
      · right
        left
        have hsome : (exec_op rand op (update_keys raw s)).1.isSome = true := by
          rw [hh]
          rfl
        have hstate : (exec_op rand op (update_keys raw s)).2 = update_keys raw s :=
          exec_op_err_eq rand op (update_keys raw s) hpc hsome
        refine ⟨rfl, ht, hstate, ?_⟩
        dsimp only
        rw [hstate]
    · have ht2 : op_uses_tail op = false := by
        cases hB : op_uses_tail op
        · rfl
        · exact absurd hB ht
      rw [execute_notail_eq rand op (update_keys raw s) ht2] at h ⊢
      left
      exact ⟨h, ht2, exec_op_err_eq rand op (update_keys raw s) hpc h⟩
  · left
    rw [tick_chip_err_eq raw rand s e hro]
    exact ⟨⟨e, rfl⟩, rfl⟩
  · exact absurd hro (read_opcode_ne_dead _)

/-- C1 witness: a concrete failing tick (the machine-language-subroutine
opcode `0x0000` at reset) instantiating the amended theorem. -/
theorem c1_error_abort_state_witness :
    ((tick_chip (fun _ => false) 0 (load [])).1.1).isSome = true
    ∧ (((∃ e, read_opcode (update_keys (fun _ => false) (load []))
            = DecodeResult.err e)
        ∧ (tick_chip (fun _ => false) 0 (load [])).1.2
            = update_keys (fun _ => false) (load []))
      ∨ (∃ op, read_opcode (update_keys (fun _ => false) (load []))
            = DecodeResult.ok op ∧
          (((exec_op 0 op (update_keys (fun _ => false) (load []))).1.isSome = true
              ∧ op_uses_tail op = false
              ∧ (tick_chip (fun _ => false) 0 (load [])).1.2
                  = update_keys (fun _ => false) (load []))
           ∨ ((exec_op 0 op (update_keys (fun _ => false) (load []))).1.isSome = true
              ∧ op_uses_tail op = true
              ∧ (exec_op 0 op (update_keys (fun _ => false) (load []))).2
                  = update_keys (fun _ => false) (load [])
              ∧ (tick_chip (fun _ => false) 0 (load [])).1.2
                  = (pc_increment (update_keys (fun _ => false) (load []))).2)
           ∨ ((exec_op 0 op (update_keys (fun _ => false) (load []))).1 = none
              ∧ op_uses_tail op = true
              ∧ (pc_increment
                  (exec_op 0 op (update_keys (fun _ => false) (load []))).2).1.isSome
                  = true
              ∧ (tick_chip (fun _ => false) 0 (load [])).1.2
                  = (exec_op 0 op (update_keys (fun _ => false) (load []))).2)))) :=
  ⟨by decide, c1_error_abort_state (fun _ => false) 0 (load []) (by decide)⟩

/-- C2 counterexample: the very first tick of a zero-filled program decodes
`0NNN` and fails with the machine-subroutine error, yet a frame is still
presented to `on_frame` (the `.and` block argument is evaluated eagerly),
contradicting "without presenting a frame". -/
theorem c2_frame_on_error_counterexample :
    ((tick_chip (fun _ => false) 0 (load [])).1.1).isSome = true
    ∧ ((tick_chip (fun _ => false) 0 (load [])).2).length = 1 :=
  ⟨by decide, rfl⟩

/-- C2 (amended): one call to `tick_chip` invokes the host `on_frame`
exactly once, regardless of whether the tick succeeds or fails; the failure
is still surfaced to the caller, but a frame is presented on the error
path too, because the `.and({ on_frame(...); Ok(()) })` block argument is
evaluated eagerly. -/
theorem c2_one_frame_per_tick (raw : Nat → Bool) (rand : Nat) (s : Chip) :
    ((tick_chip raw rand s).2).length = 1 := by
  rcases hro : read_opcode (update_keys raw s) with op | e | _
  · rw [tick_chip_ok_eq raw rand s op hro]
    rfl
  · rw [tick_chip_err_eq raw rand s e hro]
    rfl
  · exact absurd hro (read_opcode_ne_dead _)

theorem exec_op_i_lt (rand : Nat) (op : OpCode) (s : Chip) (hs : s.i < 4096)
    (hA : ∀ nnn, op = OpCode._ANNN nnn → nnn < 4096) :
    (exec_op rand op s).2.i < 4096 := by
  cases op with
  | _0NNN nnn => exact hs
  | _00E0 => exact hs
  | _00EE =>
      rcases hst : s.stack with _ | ⟨a, rest⟩ <;> simp [exec_op, subroutine_return, hst, hs]
  | _1NNN nnn =>
      simp only [exec_op]
      unfold jump_to
      split_ifs <;> exact hs
  | _2NNN nnn =>
      simp only [exec_op]
      unfold exec_subroutine_at
      split_ifs <;> exact hs
  | _3XNN x nn =>
      simp only [exec_op]
      unfold skip_if_vx_eq_nn pc_increment
      split_ifs <;> exact hs
  | _4XNN x nn =>
      simp only [exec_op]
      unfold skip_if_vx_ne_nn pc_increment
      split_ifs <;> exact hs
  | _5XY0 x y =>
      simp only [exec_op]
      unfold skip_if_vx_eq_vy pc_increment
      split_ifs <;> exact hs
  | _6XNN x nn => exact hs
  | _7XNN x nn => exact hs
  | _8XY0 x y => exact hs
  | _8XY1 x y => exact hs
  | _8XY2 x y => exact hs
  | _8XY3 x y => exact hs
  | _8XY4 x y => exact hs
  | _8XY5 x y => exact hs
  | _8XY6 x y => exact hs
  | _8XY7 x y => exact hs
  | _8XYE x y => exact hs
  | _9XY0 x y =>
      simp only [exec_op]
      unfold skip_if_vx_ne_vy pc_increment
      split_ifs <;> exact hs
  | _ANNN nnn =>
      show nnn < 4096
      exact hA nnn rfl
  | _BNNN nnn =>
      simp only [exec_op]
      unfold jump_to_nnn_add_v0
      split_ifs <;> exact hs
  | _CXNN x nn => exact hs
  | _DXYN x y n =>
      simp only [exec_op]
      by_cases hd : 4096 ≤ s.i + n
      · rw [draw_err x y n s hd]
        exact hs
      · rw [draw_ok x y n s (by omega)]
        exact hs
  | _EX9E x =>
      simp only [exec_op]
      unfold skip_if_vx_in_keys pc_increment
      split_ifs <;> exact hs
  | _EXA1 x =>
      simp only [exec_op]
      unfold skip_if_vx_not_in_keys pc_increment
      split_ifs <;> exact hs
  | _FX07 x => exact hs
  | _FX0A x =>
      simp only [exec_op]
      unfold assign_vx_wait_for_key
      cases hf : (List.range 16).find? (fun k => s.keys k = KeyState.Released) with
      | none => exact hs
      | some key =>
          dsimp only
          unfold pc_increment
          split_ifs <;> exact hs
  | _FX15 x => exact hs
  | _FX18 x => exact hs
  | _FX1E x =>
      simp only [exec_op]
      unfold assign_add_i_vx
      split_ifs with hc
      · exact hc
      · exact hs
  | _FX29 x =>
      show 0x050 + s.v x % 16 * 5 < 4096
      omega
  | _FX33 x =>
      simp only [exec_op]
      unfold assign_mem_at_i_bcd_of_vx
      split_ifs <;> exact hs
  | _FX55 x =>
      simp only [exec_op]
      unfold assign_mem_at_i_v0_to_vx
      split_ifs with hc
      · rw [fx55_go_spec]
        show s.i + (x + 1) < 4096
        omega
      · exact hs
  | _FX65 x =>
      simp only [exec_op]
      unfold assign_v0_to_vx_mem_at_i
      split_ifs with hc
      · rw [fx65_go_spec]
        show s.i + (x + 1) < 4096
        omega
      · exact hs

theorem tick_chip_i_lt (raw : Nat → Bool) (rand : Nat) (s : Chip) (hs : s.i < 4096) :
    (tick_chip raw rand s).1.2.i < 4096 := by
  rcases hro : read_opcode (update_keys raw s) with op | e | _
  · rw [tick_chip_ok_eq raw rand s op hro]
    have hs0 : (update_keys raw s).i < 4096 := hs
    have hA : ∀ nnn, op = OpCode._ANNN nnn → nnn < 4096 := by
      intro nnn hop
      subst hop
      unfold read_opcode at hro
      split_ifs at hro
      exact decode_annn_lt _ _ hro
    have hX : (exec_op rand op (update_keys raw s)).2.i < 4096 :=
      exec_op_i_lt rand op (update_keys raw s) hs0 hA
    by_cases ht : op_uses_tail op = true
    · rw [execute_tail_eq rand op _ ht]
      show (pc_increment (exec_op rand op (update_keys raw s)).2).2.i < 4096
      unfold pc_increment
      split_ifs <;> exact hX
    · have ht2 : op_uses_tail op = false := by
        cases hB : op_uses_tail op
        · rfl
        · exact absurd hB ht
      rw [execute_notail_eq rand op _ ht2]
      exact hX
  · rw [tick_chip_err_eq raw rand s e hro]
    exact hs
  · exact absurd hro (read_opcode_ne_dead _)

/-- C9: in every state reachable from a freshly loaded VM by any sequence
of `tick_chip` and `tick_timers` calls, the index register satisfies
`I < 4096`: `ANNN` only receives decoder-masked addresses, `FX1E`, `FX55`,
`FX65` bound-check before writing `I` (erroring instead of writing an
out-of-range value), and `FX29` writes at most `0x050 + 75`. -/
theorem c9_index_register_invariant (s : Chip) (hr : Reachable s) : s.i < 4096 := by
  induction hr with
  | load prog => show (0 : Nat) < 4096; norm_num
  | chip raw rand _ ih => exact tick_chip_i_lt raw rand _ ih
  | timers _ ih => exact ih

/-- C9 witness: the freshly loaded VM is reachable and satisfies the
invariant. -/
theorem c9_index_register_invariant_witness :
    Reachable (load []) ∧ (load []).i < 4096 :=
  ⟨Reachable.load [], c9_index_register_invariant (load []) (Reachable.load [])⟩

/-- C4 witness: a concrete in-bounds draw instantiating the theorem. -/
theorem c4_dxyn_pixels_witness :
    (load []).i + 1 < 4096 ∧ (draw_n_at_vx_vy 0 0 1 (load [])).1 = none :=
  ⟨by decide, (c4_dxyn_pixels 0 0 1 (load []) (by decide)).1⟩

/-- C5 counterexample: `8XY6` with `x = 0xF`, `y = 0`, `V0 = 2`: the claim
says `Vx` (that is `VF`) receives `old(V0) >> 1 = 1`, but the flag write
happens last, so the code leaves `VF = LSB(V0) = 0`. -/
theorem c5_flag_overwrite_counterexample :
    (assign_vx_vy_shifted_r 15 0 { load [] with v := vset (load []).v 0 2 }).2.v 15 = 0
    ∧ ({ load [] with v := vset (load []).v 0 2 }).v 0 / 2 = 1 :=
  ⟨by decide, by decide⟩

/-- C5 (amended): `8XY6` writes `old(Vy) >> 1` to `Vx` and `Vy` and then
writes `VF = LSB(old(Vy))` last, so when `x = 0xF` or `y = 0xF` the flag
write prevails; `8XYE` behaves symmetrically with `old(Vy) << 1` (8-bit
wrap) and `VF = MSB(old(Vy))`.  All registers other than `x`, `y`, `0xF`
are unchanged, and neither instruction can fail. -/
theorem c5_shift_dual_write (x y : Nat) (s : Chip) (hx : x < 16) (hy : y < 16)
    (hv : s.v y < 256) :
    (assign_vx_vy_shifted_r x y s).1 = none
    ∧ (assign_vx_vy_shifted_r x y s).2.v 15 = s.v y % 2
    ∧ (x ≠ 15 → (assign_vx_vy_shifted_r x y s).2.v x = s.v y / 2)
    ∧ (y ≠ 15 → (assign_vx_vy_shifted_r x y s).2.v y = s.v y / 2)
    ∧ (∀ j, j ≠ x → j ≠ y → j ≠ 15 → (assign_vx_vy_shifted_r x y s).2.v j = s.v j)
    ∧ (assign_vx_vy_shifted_l x y s).1 = none
    ∧ (assign_vx_vy_shifted_l x y s).2.v 15 = s.v y / 128
    ∧ (s.v y / 128 = if 128 ≤ s.v y then 1 else 0)
    ∧ (x ≠ 15 → (assign_vx_vy_shifted_l x y s).2.v x = s.v y * 2 % 256)
    ∧ (y ≠ 15 → (assign_vx_vy_shifted_l x y s).2.v y = s.v y * 2 % 256)
    ∧ (∀ j, j ≠ x → j ≠ y → j ≠ 15 → (assign_vx_vy_shifted_l x y s).2.v j = s.v j) := by
  refine ⟨rfl, by simp [assign_vx_vy_shifted_r, vset], ?_, ?_, ?_, rfl,
    by simp [assign_vx_vy_shifted_l, vset], ?_, ?_, ?_, ?_⟩
  · intro hxne
    by_cases hxy : x = y
    · subst hxy
      simp [assign_vx_vy_shifted_r, vset, hxne]
    · simp [assign_vx_vy_shifted_r, vset, hxne, hxy]
  · intro hyne
    simp [assign_vx_vy_shifted_r, vset, hyne]
  · intro j hjx hjy hj15
    simp [assign_vx_vy_shifted_r, vset, hjx, hjy, hj15]
  · by_cases h128 : 128 ≤ s.v y
    · rw [if_pos h128]
      omega
    · rw [if_neg h128]
      omega
  · intro hxne
    by_cases hxy : x = y
    · subst hxy
      simp [assign_vx_vy_shifted_l, vset, hxne]
    · simp [assign_vx_vy_shifted_l, vset, hxne, hxy]
  · intro hyne
    simp [assign_vx_vy_shifted_l, vset, hyne]
  · intro j hjx hjy hj15
    simp [assign_vx_vy_shifted_l, vset, hjx, hjy, hj15]

/-- C5 witness: the amended shift semantics at `x = 2`, `y = 4` on a fresh
VM. -/
theorem c5_shift_dual_write_witness :
    (2 : Nat) < 16 ∧ (4 : Nat) < 16 ∧ (load []).v 4 < 256
    ∧ (assign_vx_vy_shifted_r 2 4 (load [])).1 = none :=
  ⟨by decide, by decide, by decide,
   (c5_shift_dual_write 2 4 (load []) (by decide) (by decide) (by decide)).1⟩

theorem fx55_ok (x : Nat) (s : Chip) (h : s.i + x < 4095) :
    assign_mem_at_i_v0_to_vx x s =
      (none,
       { s with
         memory := fun a =>
           if s.i ≤ a ∧ a < s.i + (x + 1) then s.v (0 + (a - s.i)) else s.memory a,
         i := s.i + (x + 1) }) := by
  unfold assign_mem_at_i_v0_to_vx
  rw [if_pos h, fx55_go_spec]

theorem fx65_ok (x : Nat) (s : Chip) (h : s.i + x < 4095) :
    assign_v0_to_vx_mem_at_i x s =
      (none,
       { s with
         v := fun j =>
           if 0 ≤ j ∧ j < 0 + (x + 1) then s.memory (s.i + (j - 0)) else s.v j,
         i := s.i + (x + 1) }) := by
  unfold assign_v0_to_vx_mem_at_i
  rw [if_pos h, fx65_go_spec]

/-- C6: `FX55` stores `memory[I0+k] = Vk` for `k ∈ [0, x]` and leaves
`I = I0 + x + 1` (memory outside `[I0, I0+x]` and all registers
untouched); resetting `I` to `I0` and executing `FX65` then restores
`V0..Vx` to the stored values and leaves `I = I0 + x + 1` again, so `I`
advances by `x + 1` on each of the two operations. -/
theorem c6_fx55_fx65_roundtrip (x : Nat) (s : Chip) (hx : x < 16)
    (hi : s.i + x < 4095) :
    (assign_mem_at_i_v0_to_vx x s).1 = none
    ∧ (assign_mem_at_i_v0_to_vx x s).2.i = s.i + x + 1
    ∧ (∀ k, k ≤ x → (assign_mem_at_i_v0_to_vx x s).2.memory (s.i + k) = s.v k)
    ∧ (∀ a, a < s.i ∨ s.i + x < a →
        (assign_mem_at_i_v0_to_vx x s).2.memory a = s.memory a)
    ∧ (assign_mem_at_i_v0_to_vx x s).2.v = s.v
    ∧ (assign_v0_to_vx_mem_at_i x
        { (assign_mem_at_i_v0_to_vx x s).2 with i := s.i }).1 = none
    ∧ (assign_v0_to_vx_mem_at_i x
        { (assign_mem_at_i_v0_to_vx x s).2 with i := s.i }).2.i = s.i + x + 1
    ∧ (∀ k, k ≤ x → (assign_v0_to_vx_mem_at_i x
        { (assign_mem_at_i_v0_to_vx x s).2 with i := s.i }).2.v k = s.v k)
    ∧ (assign_v0_to_vx_mem_at_i x
        { (assign_mem_at_i_v0_to_vx x s).2 with i := s.i }).2.memory
        = (assign_mem_at_i_v0_to_vx x s).2.memory := by
  rw [fx55_ok x s hi]
  dsimp only
  rw [fx65_ok x _ (by dsimp only; omega)]
  dsimp only
  refine ⟨rfl, by omega, ?_, ?_, rfl, rfl, by omega, ?_, rfl⟩
  · intro k hk
    rw [if_pos (by omega)]
    exact congrArg s.v (by omega)
  · intro a ha
    rw [if_neg (by omega)]
  · intro k hk
    rw [if_pos (by omega), if_pos (by omega)]
    exact congrArg s.v (by omega)

/-- C6 witness: the roundtrip at `x = 3` on a fresh VM. -/
theorem c6_fx55_fx65_roundtrip_witness :
    (3 : Nat) < 16 ∧ (load []).i + 3 < 4095
    ∧ (assign_mem_at_i_v0_to_vx 3 (load [])).1 = none :=
  ⟨by decide, by decide,
   (c6_fx55_fx65_roundtrip 3 (load []) (by decide) (by decide)).1⟩

/-- C7: the racy and the atomic timer back-ends implement the same
decrement function (`v = 0 ↦ (Off, 0)`, `v = 1 ↦ (Finished, 0)`,
`v ≥ 2 ↦ (On, v-1)`), and any sequence of store/load/decrement calls
produces identical observations and final cell values on both. -/
theorem c7_timer_backends_equivalent (v : Nat) :
    racy_decrement v = atomic_decrement v
    ∧ (v = 0 → racy_decrement v = (TimerState.Off, 0)
        ∧ atomic_decrement v = (TimerState.Off, 0))
    ∧ (v = 1 → racy_decrement v = (TimerState.Finished, 0)
        ∧ atomic_decrement v = (TimerState.Finished, 0))
    ∧ (2 ≤ v → racy_decrement v = (TimerState.On, v - 1)
        ∧ atomic_decrement v = (TimerState.On, v - 1))
    ∧ ∀ (ops : List TimerOp) (v0 : Nat),
        run_timer racy_decrement ops v0 = run_timer atomic_decrement ops v0 := by
  refine ⟨racy_eq_atomic v, ?_, ?_, ?_, fun ops v0 => run_timer_eq ops v0⟩
  · rintro rfl
    exact ⟨rfl, rfl⟩
  · rintro rfl
    exact ⟨rfl, rfl⟩
  · intro h2
    rcases v with _ | _ | n
    · omega
    · omega
    · exact ⟨rfl, rfl⟩

/-- C7 witness: the contract at the `Finished` edge, `v = 1`. -/
theorem c7_timer_backends_equivalent_witness :
    racy_decrement 1 = (TimerState.Finished, 0)
    ∧ atomic_decrement 1 = (TimerState.Finished, 0) :=
  (c7_timer_backends_equivalent 1).2.2.1 rfl

/-- C8: the decoder is total on 16-bit words: the `unreachable!()` branch
is dead, it rejects exactly the malformed words the claim lists, and every
other word decodes to one of the 35 instruction variants. -/
theorem c8_decoder_total (w : Nat) (hw : w < 65536) :
    decode w ≠ DecodeResult.dead
    ∧ ((decode w).isErr = true ↔ malformed_claim w)
    ∧ ((decode w).isErr = false ↔ ∃ op, decode w = DecodeResult.ok op) := by
  refine ⟨decode_ne_dead w, decode_isErr_iff w, ?_⟩
  rcases hd : decode w with op | e | _
  · exact ⟨fun _ => ⟨op, rfl⟩, fun _ => rfl⟩
  · constructor
    · intro hfalse
      exact absurd hfalse (by simp [DecodeResult.isErr])
    · rintro ⟨op, hop⟩
      exact DecodeResult.noConfusion hop
  · exact absurd hd (decode_ne_dead w)

/-- C8 witness: the malformed word `0x5321` (a `5XY_` with last nibble 1). -/
theorem c8_decoder_total_witness :
    decode 0x5321 ≠ DecodeResult.dead
    ∧ ((decode 0x5321).isErr = true ↔ malformed_claim 0x5321)
    ∧ ((decode 0x5321).isErr = false ↔ ∃ op, decode 0x5321 = DecodeResult.ok op) :=
  c8_decoder_total 0x5321 (by decide)

/-- C10: `FX55` and `FX65` validate `I + x < 4095` before touching any
state, so an error leaves memory, all registers and `I` exactly as before
the instruction, and the error occurs precisely when the bound fails. -/
theorem c10_fx55_fx65_validate_first (x : Nat) (s : Chip) :
    ((assign_mem_at_i_v0_to_vx x s).1.isSome = true →
      (assign_mem_at_i_v0_to_vx x s).2 = s)
    ∧ ((assign_v0_to_vx_mem_at_i x s).1.isSome = true →
      (assign_v0_to_vx_mem_at_i x s).2 = s)
    ∧ ((assign_mem_at_i_v0_to_vx x s).1.isSome = true ↔ ¬s.i + x < 4095)
    ∧ ((assign_v0_to_vx_mem_at_i x s).1.isSome = true ↔ ¬s.i + x < 4095) := by
  unfold assign_mem_at_i_v0_to_vx assign_v0_to_vx_mem_at_i
  split_ifs with h <;> refine ⟨?_, ?_, ?_, ?_⟩ <;> simp [h]

/-- C10 witness: `FX55` with `x = 15` at `I = 4090` errors and leaves the
state untouched. -/
theorem c10_fx55_fx65_validate_first_witness :
    (assign_mem_at_i_v0_to_vx 15 { load [] with i := 4090 }).1.isSome = true
    ∧ (assign_mem_at_i_v0_to_vx 15 { load [] with i := 4090 }).2
        = { load [] with i := 4090 } :=
  ⟨by decide,
   (c10_fx55_fx65_validate_first 15 { load [] with i := 4090 }).1 (by decide)⟩
